import Mathlib

/-!
Verification of the job-to-experience matching core of the SuperPeople resume
builder, as a shallow embedding in Lean 4.

Embedding conventions, used throughout:
* Python numeric scores (floats) are modelled as exact rationals `ℚ`; every
  claim under study is about the score formulas, not float rounding.
* Python exceptions are modelled by `Except PyErr`; each `except ... raise X(msg)`
  becomes an explicit `.error` constructor carrying the message string
  (`str(e)` of a Python exception is its message).
* Python dicts with a fixed set of optional keys that the code reads exactly
  once via `d.get(key, default)` are modelled as structures whose field holds
  the retrieved value (an absent key is the default value).
* Logging and the mutable statistics counters are side effects invisible to
  every claim and are not modelled.
-/

/-! ## Python-level string helpers -/

/-- Python's substring test `needle in hay` on the underlying character
lists: true iff `needle` occurs contiguously in `hay` (the empty needle is
contained in everything). -/
def listContainsInfix (needle : List Char) : List Char → Bool
  | [] => needle.isEmpty
  | c :: t => needle.isPrefixOf (c :: t) || listContainsInfix needle t

/-- Python's `needle in hay` for strings. -/
def pyInStr (needle hay : String) : Bool :=
  listContainsInfix needle.data hay.data

/-- Python's `s.strip()` (for the ASCII whitespace the repository's data
uses), implemented over the character list so that it reduces
definitionally. -/
def String.pyStrip (s : String) : String :=
  ⟨((s.data.dropWhile Char.isWhitespace).reverse.dropWhile Char.isWhitespace).reverse⟩

/-- Python's `s.lower()` (ASCII case folding, matching `Char.pyLower`),
implemented over the character list so that it reduces definitionally. -/
def String.pyLower (s : String) : String :=
  ⟨s.data.map Char.toLower⟩

/-- Order-preserving deduplication keeping the first occurrence, as done by
Python's `dict.fromkeys` / a `seen` set, and by iterating a `set(...)`
comprehension for cardinality purposes. -/
def dedupSeen : List String → List String → List String
  | [], _ => []
  | a :: t, seen => if a ∈ seen then dedupSeen t seen else a :: dedupSeen t (a :: seen)

def dedupKeepFirst (l : List String) : List String :=
  dedupSeen l []

/-! ## Error model

`core/exceptions.py` declares the exception classes as plain subclasses of
`Exception`; `str(e)` is the construction message.  `DatabaseError` is the
name imported and raised by `core/job_matcher.py` (it is absent from
`core/exceptions.py`, an import-level defect of the repository; we model the
class the call sites name). -/

inductive PyErr where
  | weaviateDataError (msg : String)
  | databaseError (msg : String)
  | attributeError (msg : String)
  | openaiIntegrationError (msg : String)
  | experienceRefinementError (msg : String)
  | validationError (msg : String)
  | valueError (msg : String)
  | jobMatchingError (msg : String)
deriving Repr, DecidableEq

/-- `str(e)` of a Python exception: its message. -/
def PyErr.message : PyErr → String
  | .weaviateDataError m => m
  | .databaseError m => m
  | .attributeError m => m
  | .openaiIntegrationError m => m
  | .experienceRefinementError m => m
  | .validationError m => m
  | .valueError m => m
  | .jobMatchingError m => m

/-! ## Data model (`models/experience.py`, `models/job_description.py`) -/

/-- `models/experience.py`, class `Experience`: the stored candidate record.
`created_at` (a timestamp never read by the matching core) is omitted. -/
structure Experience where
  id : String
  company : String
  text : String
  role : Option String := none
  duration : Option String := none
  skills : List String := []
  categories : List String := []
deriving Repr, DecidableEq

/-- `models/job_description.py`, class `JobDescription` (fields as stored
on the object after construction). -/
structure JobDescription where
  url : String := ""
  title : String := ""
  company : String := ""
  full_text : String := ""
  summary : String := ""
  requirements : List String := []
  responsibilities : List String := []
  skills_mentioned : List String := []
  extracted_keywords : List String := []
  categories : List String := []
  inferred_industry : Option String := none
deriving Repr, DecidableEq

/-! ## RefinedExperience and its validator (`models/match_result.py`) -/

structure RefinedExperience where
  original_experience_id : String
  company : String
  role : Option String := none
  accomplishments : List String := []
  skills : List String := []
  tools_technologies : List String := []
  relevance_score : ℚ := 0
  confidence_score : ℚ := 0
  keywords_matched : List String := []
  refinement_notes : String := ""
deriving Repr, DecidableEq

/-- `RefinedExperienceValidator.validate_accomplishments` cleaning step:
strip each item, keep those of length ≥ 10 (a string of length ≥ 10 is
automatically non-empty, so the separate truthiness test is subsumed). -/
def cleanAccomplishments (v : List String) : List String :=
  (v.map String.pyStrip).filter (fun s => 10 ≤ s.length)

/-- `RefinedExperienceValidator.validate_skill_lists`: strip items, drop empty
ones, deduplicate case-insensitively keeping the first occurrence. -/
def cleanSkillList (v : List String) : List String :=
  go v []
where
  go : List String → List String → List String
  | [], _ => []
  | s :: t, seen =>
    let c := s.pyStrip
    if c ≠ "" ∧ c.pyLower ∉ seen then c :: go t (c.pyLower :: seen) else go t seen

/-- Constructing a `RefinedExperience` runs `__post_init__`, i.e. the pydantic
`RefinedExperienceValidator`, which either raises (modelled as `.error`) or
replaces the fields with their cleaned versions.  Validators run in field
declaration order. -/
def mkRefinedExperience (original_experience_id company : String)
    (role : Option String) (accomplishments skills tools_technologies : List String)
    (relevance_score confidence_score : ℚ) (keywords_matched : List String)
    (refinement_notes : String) : Except PyErr RefinedExperience :=
  if original_experience_id.pyStrip = "" then
    .error (.valueError "Experience ID cannot be empty")
  else if company.pyStrip = "" then
    .error (.valueError "Company name cannot be empty")
  else if accomplishments = [] then
    .error (.valueError "At least one accomplishment is required")
  else if cleanAccomplishments accomplishments = [] then
    .error (.valueError "At least one valid accomplishment is required")
  else if relevance_score < 0 ∨ 1 < relevance_score then
    .error (.valueError "Score must be between 0.0 and 1.0")
  else if confidence_score < 0 ∨ 1 < confidence_score then
    .error (.valueError "Score must be between 0.0 and 1.0")
  else .ok
    { original_experience_id := original_experience_id.pyStrip
      company := company.pyStrip
      role := role
      accomplishments := cleanAccomplishments accomplishments
      skills := cleanSkillList skills
      tools_technologies := cleanSkillList tools_technologies
      relevance_score := relevance_score
      confidence_score := confidence_score
      keywords_matched := cleanSkillList keywords_matched
      refinement_notes := refinement_notes }

/-! ## Local relevance scoring (`core/experience_refiner.py`,
`ExperienceRefiner.calculate_relevance_score`) -/

/-- A Python `set(s.lower() for s in l)`: modelled as the first-occurrence
deduplicated list of lowercased strings (only cardinality and membership of
the set are ever used). -/
def caseFoldSet (l : List String) : List String :=
  dedupKeepFirst (l.map String.pyLower)

/-- `len(setA.intersection(setB))` for the lowercased-string sets built from
`a` and `b`: the number of distinct lowercased elements of `a` that also
occur in `b`. -/
def interCount (a b : List String) : ℕ :=
  ((caseFoldSet a).filter (fun s => s ∈ caseFoldSet b)).length

/-- The `keyword_matches` count of `calculate_relevance_score`: how many of
the job's `extracted_keywords` occur (lowercased, as substrings) in the
lowercased experience text. -/
def keywordHitCount (e : Experience) (j : JobDescription) : ℕ :=
  (j.extracted_keywords.filter (fun kw => pyInStr kw.pyLower e.text.pyLower)).length

/-- `ExperienceRefiner.calculate_relevance_score`: the heuristic relevance
score.  An empty Python collection is falsy, so `if job_skills else 0.0`
is rendered as a test on the set's cardinality.  The surrounding
`try/except` returning `0.0` is unreachable in this pure translation. -/
def calculate_relevance_score (experience : Experience) (job_context : JobDescription) : ℚ :=
  let nSkills := (caseFoldSet job_context.skills_mentioned).length
  let skill_score : ℚ :=
    if nSkills = 0 then 0
    else (interCount experience.skills job_context.skills_mentioned : ℚ)
      / ((max nSkills 1 : ℕ) : ℚ)
  let nKw := job_context.extracted_keywords.length
  let keyword_score : ℚ := (keywordHitCount experience job_context : ℚ) / ((max nKw 1 : ℕ) : ℚ)
  let nCats := (caseFoldSet job_context.categories).length
  let category_score : ℚ :=
    if nCats = 0 then 0
    else (interCount experience.categories job_context.categories : ℚ)
      / ((max nCats 1 : ℕ) : ℚ)
  min (skill_score * (1/2) + keyword_score * (3/10) + category_score * (1/5)) 1

/-- The spec's formula for the local relevance score, written from its words:
`score = 0.5×skillOverlap/|jobSkills| + 0.3×keywordHitRate +
0.2×categoryOverlap/|jobCategories|`, each ratio case-insensitive, every
division guarded so an empty denominator contributes 0, and the result
clamped to `[0, 1]`. -/
def spec_relevance_score (experience : Experience) (job_context : JobDescription) : ℚ :=
  let nSkills := (caseFoldSet job_context.skills_mentioned).length
  let r1 : ℚ :=
    if nSkills = 0 then 0
    else (interCount experience.skills job_context.skills_mentioned : ℚ) / (nSkills : ℚ)
  let nKw := job_context.extracted_keywords.length
  let r2 : ℚ := if nKw = 0 then 0 else (keywordHitCount experience job_context : ℚ) / (nKw : ℚ)
  let nCats := (caseFoldSet job_context.categories).length
  let r3 : ℚ :=
    if nCats = 0 then 0
    else (interCount experience.categories job_context.categories : ℚ) / (nCats : ℚ)
  min 1 (max 0 ((1/2) * r1 + (3/10) * r2 + (1/5) * r3))

/-! ## Search query optimizer (`core/search_optimizer.py`)

Python's `sorted(..., key=k, reverse=True)` is a stable descending sort; we
model it by `List.insertionSort` with the relation `fun a b => k b ≤ k a`,
which computes exactly the stable descending ordering.  The two
regex-driven text extractors (`_extract_action_phrases`,
`_extract_experience_indicators`) and the regex half of
`_is_technical_term` are taken as oracle parameters: every claim under
study depends only on the structure built around them (in particular on the
constant priorities each strategy assigns). -/

/-- A query dict produced by the optimizer (or the matcher's fallback).
Modelled keys: `query`, `type`, `priority`, `strategy`, `rank`,
`final_priority`; the purely descriptive metadata keys (`description`,
`skills_count`, `category`, `keywords`, `original_text`,
`experience_indicator`, `industry_terms`) are never read by any code under
study and are omitted. -/
structure SearchQuery where
  query : String
  type : String := ""
  priority : ℚ := 1
  strategy : String := ""
  rank : Nat := 0
  final_priority : ℚ := 0
deriving Repr, DecidableEq

/-- `SearchQueryOptimizer.skill_categories` (dict of sets, insertion order). -/
def skill_categories : List (String × List String) :=
  [("programming_languages",
    ["python", "java", "javascript", "typescript", "c++", "c#", "go",
     "rust", "php", "ruby", "swift", "kotlin", "scala", "r"]),
   ("web_frameworks",
    ["react", "angular", "vue", "node.js", "express", "django",
     "flask", "spring", "laravel", "rails", "next.js", "nuxt"]),
   ("databases",
    ["postgresql", "mysql", "mongodb", "redis", "elasticsearch",
     "cassandra", "dynamodb", "sqlite", "oracle", "sqlserver"]),
   ("cloud_platforms",
    ["aws", "azure", "gcp", "google cloud", "amazon web services",
     "microsoft azure", "digital ocean", "heroku"]),
   ("devops_tools",
    ["docker", "kubernetes", "terraform", "jenkins", "gitlab",
     "github actions", "ci/cd", "ansible", "chef", "puppet"]),
   ("data_science",
    ["pandas", "numpy", "tensorflow", "pytorch", "scikit-learn",
     "spark", "hadoop", "tableau", "power bi", "jupyter"])]

/-- `SearchQueryOptimizer._generate_primary_skills_query`. -/
def generate_primary_skills_query (job_desc : JobDescription) : Option SearchQuery :=
  if job_desc.skills_mentioned = [] then none
  else some
    { query := " ".intercalate (job_desc.skills_mentioned.take 5)
      type := "primary_skills"
      priority := 1 }

/-- Append `skill` to the entry of `cat` in the insertion-ordered grouping
dict (creating the entry if absent). -/
def addToGroup (g : List (String × List String)) (cat skill : String) :
    List (String × List String) :=
  if g.any (fun p => p.1 = cat) then
    g.map (fun p => if p.1 = cat then (p.1, p.2 ++ [skill]) else p)
  else g ++ [(cat, [skill])]

/-- `SearchQueryOptimizer._group_skills_by_category`: each skill goes to the
first fixed category whose set contains its lowercase form. -/
def group_skills_by_category (skills : List String) : List (String × List String) :=
  skills.foldl
    (fun g skill =>
      match skill_categories.find? (fun p => skill.pyLower ∈ p.2) with
      | some p => addToGroup g p.1 skill
      | none => g)
    []

/-- `SearchQueryOptimizer._generate_technology_queries`. -/
def generate_technology_queries (job_desc : JobDescription) : List SearchQuery :=
  (group_skills_by_category job_desc.skills_mentioned).filterMap
    (fun p =>
      if 2 ≤ p.2.length then
        some { query := " ".intercalate (p.2.take 3)
               type := "technology_stack"
               priority := 9/10 }
      else none)

/-- `SearchQueryOptimizer._generate_responsibility_queries`;
`extract_action_phrases` is the regex-based `_extract_action_phrases`. -/
def generate_responsibility_queries (extract_action_phrases : String → List String)
    (job_desc : JobDescription) : List SearchQuery :=
  (job_desc.responsibilities.take 3).enum.filterMap
    (fun p =>
      let key_phrases := extract_action_phrases p.2
      if key_phrases ≠ [] then
        some { query := " ".intercalate (key_phrases.take 4)
               type := "responsibility"
               priority := 8/10 - (p.1 : ℚ) * (1/10) }
      else none)

/-- `SearchQueryOptimizer._generate_experience_level_queries`;
`extract_experience_indicators` is the regex-based
`_extract_experience_indicators`. -/
def generate_experience_level_queries (extract_experience_indicators : String → List String)
    (job_desc : JobDescription) : List SearchQuery :=
  let experience_indicators := extract_experience_indicators job_desc.full_text
  if experience_indicators = [] then []
  else
    (experience_indicators.take 2).filterMap
      (fun indicator =>
        let top_skills := job_desc.skills_mentioned.take 3
        if top_skills ≠ [] then
          some { query := indicator ++ " " ++ " ".intercalate top_skills
                 type := "experience_level"
                 priority := 7/10 }
        else none)

/-- `SearchQueryOptimizer._infer_industry_context` keyword table. -/
def industry_keywords : List (String × List String) :=
  [("fintech", ["finance", "fintech", "banking", "payment", "trading", "investment"]),
   ("healthcare", ["health", "medical", "healthcare", "clinical", "patient", "pharma"]),
   ("ecommerce", ["ecommerce", "retail", "marketplace", "shopping", "commerce"]),
   ("gaming", ["gaming", "game", "entertainment", "mobile", "console"]),
   ("enterprise", ["enterprise", "b2b", "saas", "platform", "business"]),
   ("media", ["media", "content", "publishing", "streaming", "video"]),
   ("security", ["security", "cybersecurity", "privacy", "compliance", "audit"])]

/-- `SearchQueryOptimizer._infer_industry_context`. -/
def infer_industry_context (job_desc : JobDescription) : List String :=
  let text_analysis :=
    (job_desc.company ++ " " ++ job_desc.title ++ " " ++ job_desc.summary).pyLower
  ((industry_keywords.filter
      (fun p => p.2.any (fun kw => pyInStr kw text_analysis))).map (fun p => p.1)).take 2

/-- `SearchQueryOptimizer._generate_industry_queries`. -/
def generate_industry_queries (job_desc : JobDescription) : List SearchQuery :=
  let industry_terms := infer_industry_context job_desc
  if industry_terms = [] then []
  else
    let top_skills := job_desc.skills_mentioned.take 3
    if top_skills = [] then []
    else
      [{ query := " ".intercalate industry_terms ++ " " ++ " ".intercalate top_skills
         type := "industry_context"
         priority := 6/10 }]

/-- Python's `hay.count(needle)` for a non-empty needle: number of
non-overlapping occurrences, scanning left to right (an empty needle is
special-cased by the caller before this is reached). -/
def countOccsGo (needle : List Char) : Nat → List Char → Nat
  | 0, _ => 0
  | _ + 1, [] => 0
  | f + 1, c :: t =>
    if needle.isPrefixOf (c :: t) then 1 + countOccsGo needle f (t.drop (needle.length - 1))
    else countOccsGo needle f t

def countOccs (needle hay : List Char) : Nat :=
  countOccsGo needle (hay.length + 1) hay

/-- `SearchQueryOptimizer._is_technical_term`; `tech_pattern_match` is the
oracle for its three `re.match` patterns (acronym, dotted, hyphenated). -/
def is_technical_term (tech_pattern_match : String → Bool) (term : String) : Bool :=
  skill_categories.any (fun p => term.pyLower ∈ p.2) || tech_pattern_match term

/-- `SearchQueryOptimizer._score_keywords`: frequency, technicality and
length based scoring, then a stable sort by score descending. -/
def score_keywords (tech_pattern_match : String → Bool) (keywords : List String)
    (full_text : String) : List (String × ℚ) :=
  let text_lower := full_text.pyLower
  let keyword_scores := keywords.filterMap
    (fun keyword =>
      if keyword = "" then none
      else
        let keyword_lower := keyword.pyLower
        let frequency : ℚ := (countOccs keyword_lower.data text_lower.data : ℚ)
        let s0 := frequency * (1/10)
        let s1 := if is_technical_term tech_pattern_match keyword then s0 + 1/2 else s0
        let s2 := if skill_categories.any (fun p => keyword_lower ∈ p.2) then s1 + 3/10 else s1
        let s3 := if 6 < keyword.length then s2 + 1/5 else s2
        some (keyword, s3))
  List.insertionSort (fun a b => b.2 ≤ a.2) keyword_scores

/-- `top_keywords[i:i+3]` slices for `i in range(0, len, 3)`. -/
def chunksOf3Go : Nat → List String → List (List String)
  | 0, _ => []
  | _ + 1, [] => []
  | f + 1, a :: t => (a :: t).take 3 :: chunksOf3Go f (t.drop 2)

def chunksOf3 (l : List String) : List (List String) :=
  chunksOf3Go (l.length + 1) l

/-- `SearchQueryOptimizer._generate_keyword_queries`. -/
def generate_keyword_queries (tech_pattern_match : String → Bool)
    (job_desc : JobDescription) : List SearchQuery :=
  let all_keywords := job_desc.extracted_keywords ++ job_desc.skills_mentioned
  let keyword_scores := score_keywords tech_pattern_match all_keywords job_desc.full_text
  let top_keywords := (keyword_scores.take 6).map (fun p => p.1)
  if 3 ≤ top_keywords.length then
    (chunksOf3 top_keywords).filterMap
      (fun keyword_group =>
        if 2 ≤ keyword_group.length then
          some { query := " ".intercalate keyword_group
                 type := "keyword_combination"
                 priority := 1/2 }
        else none)
  else []

/-- The dedup-and-truncate loop of
`SearchQueryOptimizer._rank_and_filter_queries`: walk the sorted list,
skip already-seen lowercased query texts, and stop as soon as the
accumulator reaches `max_queries` elements (checked after appending). -/
def selectUniqueAux (max_queries : Nat) :
    List SearchQuery → List String → List SearchQuery → List SearchQuery
  | [], _, acc => acc
  | q :: rest, seen, acc =>
    if q.query.pyLower ∈ seen then selectUniqueAux max_queries rest seen acc
    else
      let acc' := acc ++ [q]
      if max_queries ≤ acc'.length then acc'
      else selectUniqueAux max_queries rest (q.query.pyLower :: seen) acc'

/-- The final `rank` / `final_priority` assignment loop of
`_rank_and_filter_queries`. -/
def assignRanks (l : List SearchQuery) : List SearchQuery :=
  l.enum.map
    (fun p => { p.2 with rank := p.1 + 1
                         final_priority := p.2.priority * (1 - (p.1 : ℚ) * (1/20)) })

/-- `SearchQueryOptimizer._rank_and_filter_queries`. -/
def rank_and_filter_queries (queries : List SearchQuery) (max_queries : Nat) :
    List SearchQuery :=
  if queries = [] then []
  else
    let sorted_queries := List.insertionSort (fun a b => b.priority ≤ a.priority) queries
    assignRanks (selectUniqueAux max_queries sorted_queries [] [])

/-- `SearchQueryOptimizer.generate_search_queries`: run the six strategies
in order and rank/filter the candidates. -/
def generate_search_queries (extract_action_phrases extract_experience_indicators : String → List String)
    (tech_pattern_match : String → Bool) (enable_diversity : Bool)
    (job_description : JobDescription) (max_queries : Nat) : List SearchQuery :=
  let queries :=
    (match generate_primary_skills_query job_description with
     | some q => [q]
     | none => [])
    ++ generate_technology_queries job_description
    ++ generate_responsibility_queries extract_action_phrases job_description
    ++ (if enable_diversity then
          generate_experience_level_queries extract_experience_indicators job_description
        else [])
    ++ generate_industry_queries job_description
    ++ generate_keyword_queries tech_pattern_match job_description
  rank_and_filter_queries queries max_queries

/-- The spec's ranking step, written from its words: sort by priority
descending, drop case-insensitive duplicate query texts keeping the first
occurrence, truncate to `maxQueries`, then assign 1-based `rank` and
`finalPriority = priority × (1 − 0.05×(rank−1))`. -/
def dedupByLowerQuery : List String → List SearchQuery → List SearchQuery
  | _, [] => []
  | seen, q :: t =>
    if q.query.pyLower ∈ seen then dedupByLowerQuery seen t
    else q :: dedupByLowerQuery (q.query.pyLower :: seen) t

def spec_assign_ranks (l : List SearchQuery) : List SearchQuery :=
  l.enum.map
    (fun p =>
      { p.2 with rank := p.1 + 1
                 final_priority := p.2.priority * (1 - (1/20) * ((((p.1 + 1 : ℕ)) : ℚ) - 1)) })

def spec_rank_and_filter (queries : List SearchQuery) (max_queries : Nat) :
    List SearchQuery :=
  let sorted := List.insertionSort (fun a b => b.priority ≤ a.priority) queries
  spec_assign_ranks ((dedupByLowerQuery [] sorted).take max_queries)

/-! ## Vector store search & aggregation (`database/local_weaviate.py`)

The Weaviate client is the external vector-similarity backend; it is an
oracle parameter `backend : String → Nat → Except PyErr (List BackendHit)`
(query text and limit in, scored hits or a failure out).  The `self.client`
connectivity precondition (`raise WeaviateDataError("Database not
connected")`) models a connected instance and is outside every claim. -/

/-- One raw hit from the backend: uuid, score and distance (the copied
`properties` carry no information any claim reads). -/
structure BackendHit where
  id : String
  score : ℚ
  distance : ℚ := 1
deriving Repr, DecidableEq

/-- The `query_info` metadata attached to each result in
`search_experiences_multi_query` (the `type` key, `query_info.get('type',
'unknown')`, is never read downstream and is omitted). -/
structure QueryInfo where
  query : String := ""
  priority : ℚ := 1
  rank : Nat := 0
deriving Repr, DecidableEq

/-- A search-result dict as built by `search_experiences` and then extended
in place by `search_experiences_multi_query` /
`_aggregate_multi_query_results`.  Optional keys that appear only after a
later phase (`final_score`, `query_count`, `query_matches`) are `Option` /
defaulted fields. -/
structure SearchResult where
  id : String
  score : ℚ
  distance : ℚ := 1
  original_score : ℚ := 0
  query_info : QueryInfo := {}
  final_score : Option ℚ := none
  query_count : Nat := 0
  query_matches : List QueryInfo := []
deriving Repr, DecidableEq

/-- `LocalWeaviateDB.search_experiences` (single query): ask the backend,
keep hits meeting `min_score`, wrap any failure as `WeaviateDataError`. -/
def search_experiences (backend : String → Nat → Except PyErr (List BackendHit))
    (query : String) (limit : Nat) (min_score : Option ℚ) :
    Except PyErr (List SearchResult) :=
  match backend query limit with
  | .error e => .error (.weaviateDataError ("Failed to search experiences: " ++ e.message))
  | .ok hits => .ok
      (hits.filterMap
        (fun h =>
          let keep := match min_score with
            | none => true
            | some m => m ≤ h.score
          if keep then some { id := h.id, score := h.score, distance := h.distance }
          else none))

/-- An element of the `queries` argument of
`search_experiences_multi_query`: the optimizer hands it dicts, but
`JobMatcher._search_relevant_experiences` hands it plain strings — Python
only discovers the difference when `.get` is attempted. -/
inductive QueryElem where
  | asDict (d : SearchQuery)
  | asStr (s : String)
deriving Repr, DecidableEq

/-- `query_info.get('query', '')`: succeeds on a dict, raises
`AttributeError` on a plain string. -/
def pyGetQuery : QueryElem → Except PyErr String
  | .asDict d => .ok d.query
  | .asStr _ => .error (.attributeError "'str' object has no attribute 'get'")

/-- `query_info.get('priority', 1.0)` / `query_info.get('rank', 0)` (only
reached on dicts). -/
def pyGetPriority : QueryElem → ℚ
  | .asDict d => d.priority
  | .asStr _ => 1

def pyGetRank : QueryElem → Nat
  | .asDict d => d.rank
  | .asStr _ => 0

/-- The per-query loop of `search_experiences_multi_query`: skip queries
with empty stripped text, run `search_experiences` with the doubled limit,
tag each hit with `query_info` and the priority-scaled score, and
concatenate.  Any exception aborts the loop (it is caught and re-wrapped by
the caller). -/
def runQueries (backend : String → Nat → Except PyErr (List BackendHit))
    (search_limit : Nat) (min_score : Option ℚ) :
    List QueryElem → Except PyErr (List SearchResult)
  | [] => .ok []
  | q :: rest =>
    match pyGetQuery q with
    | .error e => .error e
    | .ok raw =>
      let query_text := raw.pyStrip
      if query_text = "" then runQueries backend search_limit min_score rest
      else
        match search_experiences backend query_text search_limit min_score with
        | .error e => .error e
        | .ok query_results =>
          let tagged := query_results.map
            (fun r =>
              { r with
                query_info :=
                  { query := query_text
                    priority := pyGetPriority q
                    rank := pyGetRank q }
                original_score := r.score
                score := r.score * pyGetPriority q })
          match runQueries backend search_limit min_score rest with
          | .error e => .error e
          | .ok acc => .ok (tagged ++ acc)

/-- Merging one more hit into an existing aggregate entry
(`_aggregate_multi_query_results`, duplicate branch): running weighted
average of scaled scores, then the 10%-per-extra-match boost
`1 + (total_weight − 1) × 0.1` (with `total_weight = old_weight + 1`, the
boost factor is `1 + old_weight × 0.1`). -/
def mergeEntry (existing : SearchResult) (r : SearchResult) : SearchResult :=
  let existing_weight := existing.query_count
  let total_weight := existing_weight + 1
  let combined_score := (existing.score * existing_weight + r.score * 1) / (total_weight : ℚ)
  { existing with
    score := combined_score
    final_score := some (combined_score * (1 + (existing_weight : ℚ) * (1/10)))
    query_count := total_weight
    query_matches := existing.query_matches ++ [r.query_info] }

/-- First occurrence of an experience id
(`_aggregate_multi_query_results`, else branch). -/
def initEntry (r : SearchResult) : SearchResult :=
  { r with query_count := 1, final_score := some r.score, query_matches := [r.query_info] }

/-- One step of the aggregation loop over `results`: a falsy (empty) id is
skipped; a known id is merged into its (unique) map entry; a new id is
appended.  The Python dict keyed by id, read out with `.values()`, is the
insertion-ordered association list itself. -/
def aggStep (m : List SearchResult) (r : SearchResult) : List SearchResult :=
  if r.id = "" then m
  else if m.any (fun e => e.id = r.id) then
    m.map (fun e => if e.id = r.id then mergeEntry e r else e)
  else m ++ [initEntry r]

/-- `LocalWeaviateDB._aggregate_multi_query_results`. -/
def aggregate_multi_query_results (results : List SearchResult) : List SearchResult :=
  results.foldl aggStep []

/-- The sort key of the final ordering: `x.get('final_score',
x.get('score', 0))`. -/
def finalKey (r : SearchResult) : ℚ :=
  match r.final_score with
  | some v => v
  | none => r.score

/-- `LocalWeaviateDB.search_experiences_multi_query`: empty query list gives
`[]`; otherwise run all queries (any raise aborts), optionally aggregate,
sort by the final key descending (stable) and truncate to `limit`; every
exception is re-raised as `WeaviateDataError("Multi-query search failed:
...")`. -/
def search_experiences_multi_query (backend : String → Nat → Except PyErr (List BackendHit))
    (queries : List QueryElem) (limit : Option Nat) (min_score : Option ℚ)
    (deduplicate : Bool) : Except PyErr (List SearchResult) :=
  if queries = [] then .ok []
  else
    let search_limit := (limit.getD 10) * 2
    match runQueries backend search_limit min_score queries with
    | .error e => .error (.weaviateDataError ("Multi-query search failed: " ++ e.message))
    | .ok all_results =>
      let aggregated_results :=
        if deduplicate then aggregate_multi_query_results all_results else all_results
      let final_results :=
        List.insertionSort (fun a b => finalKey b ≤ finalKey a) aggregated_results
      .ok (match limit with
           | some n => final_results.take n
           | none => final_results)

/-! ## Experience refiner (`core/experience_refiner.py`)

The OpenAI service is an oracle `ai : String → Nat → Except PyErr
AIResponse` (prompt and 0-based attempt number in, a structured response or
a failure out); prompt construction (`core/prompts.py`, out of the spec's
scope) is an oracle `build… : … → String`.  The oracle returns the
structured-dict shape directly: the `json.loads` / plain-string fallback
branches of `_call_openai_refinement` only renormalize non-dict responses
into the same shape.  -/

/-- The structured AI refinement response dict.  Each key is read exactly
once via `ai_result.get(key, default)`, so an absent key is identified with
its default value. -/
structure AIRefinementData where
  refined_accomplishments : List String := []
  tailored_accomplishments : List String := []
  key_skills : List String := []
  relevant_skills : List String := []
  technical_skills : List String := []
  soft_skills : List String := []
  tools_technologies : List String := []
  relevance_score : ℚ := 0
  confidence_score : ℚ := 4/5
  matching_keywords : List String := []
  extracted_keywords : List String := []
  tailoring_notes : String := ""
deriving Repr, DecidableEq

/-- One element of a batch response's `refined_experiences` list: an
`original_index` key plus the per-experience refinement keys. -/
structure BatchItem where
  original_index : Option Int := none
  data : AIRefinementData := {}
deriving Repr, DecidableEq

/-- A full AI response dict: the per-experience keys (read by
`_parse_refinement_result`) and the `refined_experiences` key (read only by
`_parse_batch_refinement_result`). -/
structure AIResponse where
  data : AIRefinementData := {}
  refined_experiences : List BatchItem := []
deriving Repr, DecidableEq

/-- `ExperienceRefiner._call_openai_refinement`: up to `max_retries`
attempts; the final attempt's failure is wrapped as
`OpenAIIntegrationError`; with `max_retries = 0` the loop body never runs
and the trailing raise fires. -/
def call_openai_refinement (ai : String → Nat → Except PyErr AIResponse)
    (prompt : String) (max_retries : Nat) : Except PyErr AIResponse :=
  go 0 max_retries
where
  go (attempt fuel : Nat) : Except PyErr AIResponse :=
    match fuel with
    | 0 => .error (.openaiIntegrationError "Maximum retries exceeded")
    | fuel' + 1 =>
      match ai prompt attempt with
      | .ok r => .ok r
      | .error e =>
        if fuel' = 0 then
          .error (.openaiIntegrationError ("All OpenAI attempts failed: " ++ e.message))
        else go (attempt + 1) fuel'

/-- Python's `list(dict.fromkeys(l))`: order-preserving exact-duplicate
removal keeping the first occurrence. -/
def pyDictFromKeys (l : List String) : List String :=
  dedupKeepFirst l

/-- `ExperienceRefiner._parse_refinement_result`: probe alternate keys,
deduplicate, default the confidence, recompute a zero relevance locally
when a job context is present, then construct (and hence validate) the
`RefinedExperience`; a validation failure is re-raised as
`ValidationError("Failed to parse refinement result: ...")`. -/
def parse_refinement_result (original_experience : Experience)
    (ai_result : AIRefinementData) (job_context : Option JobDescription) :
    Except PyErr RefinedExperience :=
  let accomplishments :=
    if ai_result.refined_accomplishments ≠ [] then ai_result.refined_accomplishments
    else if ai_result.tailored_accomplishments ≠ [] then ai_result.tailored_accomplishments
    else [original_experience.text]
  let skills := pyDictFromKeys
    (ai_result.key_skills ++ ai_result.relevant_skills
      ++ ai_result.technical_skills ++ ai_result.soft_skills)
  let tools := ai_result.tools_technologies
  let relevance_score :=
    if ai_result.relevance_score = 0 then
      match job_context with
      | some jc => calculate_relevance_score original_experience jc
      | none => ai_result.relevance_score
    else ai_result.relevance_score
  let keywords := pyDictFromKeys (ai_result.matching_keywords ++ ai_result.extracted_keywords)
  match mkRefinedExperience original_experience.id original_experience.company
      original_experience.role accomplishments skills tools relevance_score
      ai_result.confidence_score keywords ai_result.tailoring_notes with
  | .ok r => .ok r
  | .error e => .error (.validationError ("Failed to parse refinement result: " ++ e.message))

/-- The fallback dict substituted for an input index with no matching
`original_index` entry in the batch result. -/
def missingBatchFallback (original_exp : Experience) : AIRefinementData :=
  { refined_accomplishments := [original_exp.text]
    key_skills := original_exp.skills
    relevance_score := 1/2 }

/-- Find the first batch entry with `original_index == i`. -/
def findBatchEntry (batch_results : List BatchItem) (i : Nat) : Option BatchItem :=
  batch_results.find? (fun b => b.original_index = some (i : Int))

/-- The enumerated loop body of `_parse_batch_refinement_result`, starting
at index `i`. -/
def parseBatchAux (ai_result : AIResponse) (job_context : Option JobDescription) :
    Nat → List Experience → Except PyErr (List RefinedExperience)
  | _, [] => .ok []
  | i, original_exp :: rest =>
    let result := match findBatchEntry ai_result.refined_experiences i with
      | some b => b.data
      | none => missingBatchFallback original_exp
    match parse_refinement_result original_exp result job_context with
    | .error e => .error e
    | .ok refined_exp =>
      match parseBatchAux ai_result job_context (i + 1) rest with
      | .error e => .error e
      | .ok l => .ok (refined_exp :: l)

/-- `ExperienceRefiner._parse_batch_refinement_result`: one refined record
per input experience, in input order; unmatched indices get the fallback
dict; any exception is re-raised as `ValidationError("Failed to parse
batch refinement result: ...")`. -/
def parse_batch_refinement_result (original_experiences : List Experience)
    (ai_result : AIResponse) (job_context : Option JobDescription) :
    Except PyErr (List RefinedExperience) :=
  match parseBatchAux ai_result job_context 0 original_experiences with
  | .ok l => .ok l
  | .error e =>
    .error (.validationError ("Failed to parse batch refinement result: " ++ e.message))

/-- The request-scoped refinement cache, keyed as in
`ExperienceRefiner._generate_cache_key` (the Python key interpolates
`hash(...)`; we key on the underlying data, which the hash is a function
of). -/
structure CacheKey where
  exp_company : String
  exp_text : String
  job_key : Option (String × String × List String)
  refinement_type : String
deriving Repr, DecidableEq

def generate_cache_key (experience : Experience) (job_context : Option JobDescription)
    (refinement_type : String) : CacheKey :=
  { exp_company := experience.company
    exp_text := experience.text
    job_key := job_context.map (fun jc => (jc.title, jc.company, jc.skills_mentioned))
    refinement_type := refinement_type }

/-- `ExperienceRefiner.refine_experience`, with the cache state threaded
explicitly: a cache hit returns the stored record; otherwise build the
prompt (oracle `build_prompt`), call the AI with retry, parse/validate,
store on success; any exception is re-raised as
`ExperienceRefinementError("Experience refinement failed: ...")`. -/
def refine_experience_st
    (build_prompt : Experience → Option JobDescription → String → Option String → String)
    (ai : String → Nat → Except PyErr AIResponse) (max_retries : Nat)
    (cache : List (CacheKey × RefinedExperience))
    (experience : Experience) (job_context : Option JobDescription)
    (refinement_type : String) (specialization : Option String) :
    Except PyErr RefinedExperience × List (CacheKey × RefinedExperience) :=
  let key := generate_cache_key experience job_context refinement_type
  match cache.lookup key with
  | some r => (.ok r, cache)
  | none =>
    let prompt := build_prompt experience job_context refinement_type specialization
    match call_openai_refinement ai prompt max_retries with
    | .error e =>
      (.error (.experienceRefinementError ("Experience refinement failed: " ++ e.message)), cache)
    | .ok response =>
      match parse_refinement_result experience response.data job_context with
      | .error e =>
        (.error (.experienceRefinementError ("Experience refinement failed: " ++ e.message)), cache)
      | .ok refined => (.ok refined, (key, refined) :: cache)

/-- `ExperienceRefiner.refine_experience` (result only). -/
def refine_experience
    (build_prompt : Experience → Option JobDescription → String → Option String → String)
    (ai : String → Nat → Except PyErr AIResponse) (max_retries : Nat)
    (cache : List (CacheKey × RefinedExperience))
    (experience : Experience) (job_context : Option JobDescription)
    (refinement_type : String) (specialization : Option String) :
    Except PyErr RefinedExperience :=
  (refine_experience_st build_prompt ai max_retries cache experience job_context
    refinement_type specialization).1

/-- `ExperienceRefiner._fallback_individual_refinement`: sequential
`refine_experience` calls (default `refinement_type="general"`, no
specialization); a per-experience failure is replaced by the minimal
fallback record — whose own validation failure, arising inside the
`except` handler, propagates. -/
def fallback_individual_refinement
    (build_prompt : Experience → Option JobDescription → String → Option String → String)
    (ai : String → Nat → Except PyErr AIResponse) (max_retries : Nat)
    (cache : List (CacheKey × RefinedExperience))
    (experiences : List Experience) (job_context : Option JobDescription) :
    Except PyErr (List RefinedExperience) :=
  match experiences with
  | [] => .ok []
  | experience :: rest =>
    let (res, cache') := refine_experience_st build_prompt ai max_retries cache
      experience job_context "general" none
    let one : Except PyErr RefinedExperience :=
      match res with
      | .ok r => .ok r
      | .error _ =>
        mkRefinedExperience experience.id experience.company experience.role
          [experience.text] experience.skills [] 0 (1/2) [] "Fallback processing"
    match one with
    | .error e => .error e
    | .ok r =>
      match fallback_individual_refinement build_prompt ai max_retries cache'
          rest job_context with
      | .error e => .error e
      | .ok l => .ok (r :: l)

/-- `ExperienceRefiner.refine_experiences_batch`: truncate to the first
`max_experiences` inputs, try the batched AI call and batch parse, and on
ANY failure fall back to individual refinement of the truncated list.
`build_batch_prompt` is the oracle for
`PromptBuilder.build_batch_refinement_prompt` composed with
`PromptOptimizer.optimize_for_tokens`. -/
def refine_experiences_batch
    (build_batch_prompt : List Experience → Option JobDescription → String)
    (build_prompt : Experience → Option JobDescription → String → Option String → String)
    (ai : String → Nat → Except PyErr AIResponse) (max_retries : Nat)
    (cache : List (CacheKey × RefinedExperience))
    (experiences : List Experience) (job_context : Option JobDescription)
    (max_experiences : Nat) : Except PyErr (List RefinedExperience) :=
  let experiences_to_process := experiences.take max_experiences
  let attempt : Except PyErr (List RefinedExperience) :=
    match call_openai_refinement ai (build_batch_prompt experiences_to_process job_context)
        max_retries with
    | .error e => .error e
    | .ok batch_result =>
      parse_batch_refinement_result experiences_to_process batch_result job_context
  match attempt with
  | .ok l => .ok l
  | .error _ =>
    fallback_individual_refinement build_prompt ai max_retries cache
      experiences_to_process job_context

/-! ## Job matcher stages (`core/job_matcher.py`)

Each `_stage` helper of `JobMatcher` is modelled as a function of its
inputs plus the configuration values it reads (`self.max_experiences`,
`self.min_relevance_score`, `self.enable_refinement`). -/

/-- The fallback query dict built in `JobMatcher._generate_search_queries`'s
`except` handler (it carries `strategy`, not `type`). -/
def fallbackQueryDict (job_description : JobDescription) : SearchQuery :=
  { query := " ".intercalate (job_description.skills_mentioned.take 5)
    strategy := "fallback"
    priority := 1 }

/-- `JobMatcher._generate_search_queries`, with the outcome of the
`SearchQueryOptimizer.generate_search_queries` call passed explicitly: a
raised exception (`.error`) triggers the fallback query; a returned list —
even an empty one — is passed on as-is. -/
def generate_search_queries_stage (optimizer_outcome : Except PyErr (List SearchQuery))
    (job_description : JobDescription) : List SearchQuery :=
  match optimizer_outcome with
  | .ok qs => qs
  | .error _ => [fallbackQueryDict job_description]

/-- `JobMatcher._search_relevant_experiences`: extract the plain query
strings (dropping falsy ones), raise `DatabaseError` when none remain,
otherwise call `search_experiences_multi_query` handing it the plain
strings; every exception is re-raised as `DatabaseError("Experience search
failed: ...")`. -/
def search_relevant_experiences (backend : String → Nat → Except PyErr (List BackendHit))
    (max_experiences : Nat) (min_relevance_score : ℚ)
    (search_queries : List SearchQuery) : Except PyErr (List SearchResult) :=
  let query_strings := (search_queries.filter (fun q => q.query ≠ "")).map (fun q => q.query)
  let attempt : Except PyErr (List SearchResult) :=
    if query_strings = [] then .error (.databaseError "No valid search queries generated")
    else
      search_experiences_multi_query backend (query_strings.map QueryElem.asStr)
        (some max_experiences) (some min_relevance_score) true
  match attempt with
  | .ok rs => .ok rs
  | .error e => .error (.databaseError ("Experience search failed: " ++ e.message))

/-- `JobMatcher._calculate_basic_relevance`. -/
def calculate_basic_relevance (experience : Experience) (job_description : JobDescription) : ℚ :=
  let exp_text := experience.text.pyLower
  let job_keywords :=
    (job_description.skills_mentioned ++ job_description.extracted_keywords).map String.pyLower
  let match_count : ℚ := ((job_keywords.filter (fun kw => pyInStr kw exp_text)).length : ℚ)
  let relevance_score : ℚ :=
    if job_keywords = [] then 0
    else match_count / ((max job_keywords.length 1 : ℕ) : ℚ)
  min relevance_score 1

/-- `JobMatcher._convert_to_refined_experiences`: the no-AI conversion (a
constructor/validation failure propagates to the caller). -/
def convert_to_refined_experiences (experiences : List Experience)
    (job_description : JobDescription) : Except PyErr (List RefinedExperience) :=
  match experiences with
  | [] => .ok []
  | experience :: rest =>
    match mkRefinedExperience experience.id experience.company experience.role
        [experience.text] experience.skills []
        (calculate_basic_relevance experience job_description) (7/10) []
        "No AI refinement applied" with
    | .error e => .error e
    | .ok r =>
      match convert_to_refined_experiences rest job_description with
      | .error e => .error e
      | .ok l => .ok (r :: l)

/-- `JobMatcher._refine_experiences`: with refinement disabled, convert
directly; otherwise batch-refine, keep records with `relevance_score ≥
min_relevance_score`, stable-sort them descending by `relevance_score`;
any exception falls back to converting the FULL (untruncated) input list.
A failure raised by that conversion itself propagates. -/
def refine_experiences_stage (enable_refinement : Bool)
    (build_batch_prompt : List Experience → Option JobDescription → String)
    (build_prompt : Experience → Option JobDescription → String → Option String → String)
    (ai : String → Nat → Except PyErr AIResponse) (max_retries : Nat)
    (cache : List (CacheKey × RefinedExperience))
    (experiences : List Experience) (job_description : JobDescription)
    (max_experiences : Nat) (min_relevance_score : ℚ) :
    Except PyErr (List RefinedExperience) :=
  if enable_refinement = false then
    convert_to_refined_experiences experiences job_description
  else
    match refine_experiences_batch build_batch_prompt build_prompt ai max_retries cache
        experiences (some job_description) max_experiences with
    | .ok refined_experiences =>
      let filtered_experiences :=
        refined_experiences.filter (fun e => min_relevance_score ≤ e.relevance_score)
      .ok (List.insertionSort
        (fun a b => b.relevance_score ≤ a.relevance_score) filtered_experiences)
    | .error _ => convert_to_refined_experiences experiences job_description

/-! ## C1: deduplicating merge of the aggregator -/

/-- The sub-list of results carrying experience id `x`. -/
def entriesFor (x : String) (l : List SearchResult) : List SearchResult :=
  l.filter (fun e => e.id = x)

/-- A concrete stored experience with duplicate skills, used to exercise
the batch-parse fallback path. -/
def sampleExperience : Experience :=
  { id := "e1", company := "Acme", text := "built data pipelines",
    skills := ["Python", "Python"] }

/-- The record the batch-parse fallback actually produces for
`sampleExperience`. -/
def sampleFallbackRecord : RefinedExperience :=
  { original_experience_id := "e1", company := "Acme",
    accomplishments := ["built data pipelines"], skills := ["Python"],
    tools_technologies := [], relevance_score := 1/2, confidence_score := 4/5,
    keywords_matched := [], refinement_notes := "" }

/-- The five stored experiences of the C5 scenario. -/
def c5Experiences : List Experience :=
  [{ id := "e0", company := "Acme", text := "built data pipelines at scale" },
   { id := "e1", company := "Beta", text := "led a replatforming effort" },
   { id := "e2", company := "Gama", text := "maintained legacy services" },
   { id := "e3", company := "Delt", text := "designed streaming systems" },
   { id := "e4", company := "Epsi", text := "wrote internal tooling docs" }]

/-- The batch AI response assigning relevance scores
`[0.9, 0.6, 0.4, 0.8, 0.3]` to indices 0–4. -/
def c5Response : AIResponse :=
  { refined_experiences :=
      [{ original_index := some 0,
         data := { refined_accomplishments := ["delivered measurable results"],
                   relevance_score := 9/10 } },
       { original_index := some 1,
         data := { refined_accomplishments := ["delivered measurable results"],
                   relevance_score := 6/10 } },
       { original_index := some 2,
         data := { refined_accomplishments := ["delivered measurable results"],
                   relevance_score := 4/10 } },
       { original_index := some 3,
         data := { refined_accomplishments := ["delivered measurable results"],
                   relevance_score := 8/10 } },
       { original_index := some 4,
         data := { refined_accomplishments := ["delivered measurable results"],
                   relevance_score := 3/10 } }] }

/-- The record the refiner produces for index 0 (score 0.9). -/
def c5Record0 : RefinedExperience :=
  { original_experience_id := "e0", company := "Acme",
    accomplishments := ["delivered measurable results"], skills := [],
    tools_technologies := [], relevance_score := 9/10, confidence_score := 4/5,
    keywords_matched := [], refinement_notes := "" }

/-- The record the refiner produces for index 1 (score 0.6). -/
def c5Record1 : RefinedExperience :=
  { original_experience_id := "e1", company := "Beta",
    accomplishments := ["delivered measurable results"], skills := [],
    tools_technologies := [], relevance_score := 6/10, confidence_score := 4/5,
    keywords_matched := [], refinement_notes := "" }

theorem mem_dedupSeen (a : String) :
    ∀ (l seen : List String), a ∈ dedupSeen l seen ↔ a ∈ l ∧ a ∉ seen := by
  intro l
  induction l with
  | nil => intro seen; simp [dedupSeen]
  | cons b t IH =>
    intro seen
    rw [dedupSeen]
    by_cases hb : b ∈ seen
    · rw [if_pos hb, IH seen]
      constructor
      · exact fun ⟨h1, h2⟩ => ⟨List.mem_cons_of_mem b h1, h2⟩
      · rintro ⟨h1, h2⟩
        rcases List.mem_cons.mp h1 with rfl | h1
        · exact absurd hb h2
        · exact ⟨h1, h2⟩
    · rw [if_neg hb]
      constructor
      · intro h
        rcases List.mem_cons.mp h with rfl | h
        · exact ⟨List.mem_cons_self a t, hb⟩
        · obtain ⟨h1, h2⟩ := (IH (b :: seen)).mp h
          exact ⟨List.mem_cons_of_mem b h1,
            fun hc => h2 (List.mem_cons_of_mem b hc)⟩
      · rintro ⟨h1, h2⟩
        rcases List.mem_cons.mp h1 with rfl | h1
        · exact List.mem_cons_self a _
        · by_cases hab : a = b
          · subst hab; exact List.mem_cons_self a _
          · exact List.mem_cons_of_mem b ((IH (b :: seen)).mpr
              ⟨h1, by simp [hab, h2]⟩)

theorem mem_dedupKeepFirst (a : String) (l : List String) :
    a ∈ dedupKeepFirst l ↔ a ∈ l := by
  unfold dedupKeepFirst
  rw [mem_dedupSeen]
  simp

theorem nodup_dedupSeen : ∀ (l seen : List String), (dedupSeen l seen).Nodup := by
  intro l
  induction l with
  | nil => intro seen; simp [dedupSeen]
  | cons b t IH =>
    intro seen
    rw [dedupSeen]
    by_cases hb : b ∈ seen
    · rw [if_pos hb]; exact IH seen
    · rw [if_neg hb]
      refine List.nodup_cons.mpr ⟨?_, IH (b :: seen)⟩
      intro hc
      exact ((mem_dedupSeen b t (b :: seen)).mp hc).2 (List.mem_cons_self b seen)

theorem nodup_dedupKeepFirst (l : List String) : (dedupKeepFirst l).Nodup :=
  nodup_dedupSeen l []

/-! ### C8 helper lemmas -/

theorem interCount_le (a b : List String) : interCount a b ≤ (caseFoldSet b).length := by
  have hnd : ((caseFoldSet a).filter (fun s => s ∈ caseFoldSet b)).Nodup :=
    (nodup_dedupKeepFirst _).filter _
  have hsub : ((caseFoldSet a).filter (fun s => s ∈ caseFoldSet b)) ⊆ caseFoldSet b := by
    intro x hx
    simpa using (List.mem_filter.mp hx).2
  exact (hnd.subperm hsub).length_le

theorem keywordHitCount_le (e : Experience) (j : JobDescription) :
    keywordHitCount e j ≤ j.extracted_keywords.length :=
  List.length_filter_le _ _

/-- The shared arithmetic core of C8, over abstract counts. -/
theorem guarded_formula_eq (o1 n1 k nk o3 n3 : ℕ) (hk : k ≤ nk) :
    min ((if n1 = 0 then (0:ℚ) else (o1:ℚ) / ((max n1 1 : ℕ) : ℚ)) * (1/2)
        + ((k:ℚ) / ((max nk 1 : ℕ) : ℚ)) * (3/10)
        + (if n3 = 0 then (0:ℚ) else (o3:ℚ) / ((max n3 1 : ℕ) : ℚ)) * (1/5)) 1
      = min 1 (max 0 ((1/2) * (if n1 = 0 then (0:ℚ) else (o1:ℚ) / (n1:ℚ))
        + (3/10) * (if nk = 0 then (0:ℚ) else (k:ℚ) / (nk:ℚ))
        + (1/5) * (if n3 = 0 then (0:ℚ) else (o3:ℚ) / (n3:ℚ)))) := by
  have piece : ∀ o n : ℕ,
      (if n = 0 then (0:ℚ) else (o:ℚ) / ((max n 1 : ℕ) : ℚ))
        = (if n = 0 then (0:ℚ) else (o:ℚ) / (n:ℚ)) := by
    intro o n
    by_cases hn : n = 0
    · simp [hn]
    · have h1 : 1 ≤ n := Nat.one_le_iff_ne_zero.mpr hn
      simp [hn, Nat.max_eq_left h1]
  have piece2 : ((k:ℚ) / ((max nk 1 : ℕ) : ℚ))
      = (if nk = 0 then (0:ℚ) else (k:ℚ) / (nk:ℚ)) := by
    by_cases hn : nk = 0
    · have hk0 : k = 0 := Nat.le_zero.mp (hn ▸ hk)
      simp [hn, hk0]
    · have h1 : 1 ≤ nk := Nat.one_le_iff_ne_zero.mpr hn
      simp [hn, Nat.max_eq_left h1]
  rw [piece o1 n1, piece2, piece o3 n3]
  have hpos : ∀ o n : ℕ, 0 ≤ (if n = 0 then (0:ℚ) else (o:ℚ) / (n:ℚ)) := by
    intro o n
    by_cases hn : n = 0
    · simp [hn]
    · simp only [hn, if_false]
      positivity
  have hx : 0 ≤ (if n1 = 0 then (0:ℚ) else (o1:ℚ) / (n1:ℚ)) * (1/2)
      + (if nk = 0 then (0:ℚ) else (k:ℚ) / (nk:ℚ)) * (3/10)
      + (if n3 = 0 then (0:ℚ) else (o3:ℚ) / (n3:ℚ)) * (1/5) := by
    have := hpos o1 n1
    have := hpos k nk
    have := hpos o3 n3
    positivity
  rw [min_comm]
  congr 1
  rw [max_eq_right]
  · ring
  · calc (0:ℚ) ≤ _ := hx
      _ = _ := by ring

/-- C8: the local relevance score computed by `calculate_relevance_score`
equals the spec's formula (0.5/0.3/0.2-weighted, case-insensitive, guarded
ratios, clamped to `[0,1]`), and in particular always lies in `[0,1]`. -/
theorem relevance_score_matches_spec (e : Experience) (j : JobDescription) :
    calculate_relevance_score e j = spec_relevance_score e j ∧
      0 ≤ calculate_relevance_score e j ∧ calculate_relevance_score e j ≤ 1 := by
  have heq : calculate_relevance_score e j = spec_relevance_score e j := by
    unfold calculate_relevance_score spec_relevance_score
    exact guarded_formula_eq _ _ _ _ _ _ (keywordHitCount_le e j)
  refine ⟨heq, ?_, ?_⟩
  · rw [heq]; unfold spec_relevance_score
    exact le_min zero_le_one (le_max_left 0 _)
  · rw [heq]; unfold spec_relevance_score
    exact min_le_left 1 _

theorem mergeEntry_id (e r : SearchResult) : (mergeEntry e r).id = e.id := rfl

theorem initEntry_id (r : SearchResult) : (initEntry r).id = r.id := rfl

theorem entriesFor_append (x : String) (l₁ l₂ : List SearchResult) :
    entriesFor x (l₁ ++ l₂) = entriesFor x l₁ ++ entriesFor x l₂ := by
  simp [entriesFor]

theorem filter_map_update_ne (x : String) (r : SearchResult) (h : r.id ≠ x) :
    ∀ m : List SearchResult,
      (m.map (fun e => if e.id = r.id then mergeEntry e r else e)).filter
          (fun e => e.id = x)
        = m.filter (fun e => e.id = x)
  | [] => rfl
  | e :: t => by
    have IH := filter_map_update_ne x r h t
    by_cases he : e.id = r.id
    · have hex : ¬ (e.id = x) := fun hc => h (he ▸ hc)
      rw [List.map_cons, if_pos he]
      rw [List.filter_cons_of_neg (by simp [mergeEntry_id, hex])]
      rw [List.filter_cons_of_neg (by simp [hex])]
      exact IH
    · rw [List.map_cons, if_neg he]
      by_cases hex : e.id = x
      · rw [List.filter_cons_of_pos (by simp [hex]),
          List.filter_cons_of_pos (by simp [hex])]
        rw [IH]
      · rw [List.filter_cons_of_neg (by simp [hex]),
          List.filter_cons_of_neg (by simp [hex])]
        exact IH

theorem filter_map_update_eq (x : String) (r : SearchResult) (hr : r.id = x) :
    ∀ m : List SearchResult,
      (m.map (fun e => if e.id = r.id then mergeEntry e r else e)).filter
          (fun e => e.id = x)
        = (m.filter (fun e => e.id = x)).map (fun e => mergeEntry e r)
  | [] => rfl
  | e :: t => by
    have IH := filter_map_update_eq x r hr t
    by_cases hex : e.id = x
    · have he : e.id = r.id := by rw [hex, hr]
      rw [List.map_cons, if_pos he]
      rw [List.filter_cons_of_pos (by simp [mergeEntry_id, hex])]
      rw [List.filter_cons_of_pos (by simp [hex])]
      rw [List.map_cons, IH]
    · have he : ¬ e.id = r.id := by rw [hr]; exact hex
      rw [List.map_cons, if_neg he]
      rw [List.filter_cons_of_neg (by simp [hex])]
      rw [List.filter_cons_of_neg (by simp [hex])]
      exact IH

/-- `aggStep` with a result whose id is not `x` leaves the `x`-entries
untouched. -/
theorem entriesFor_aggStep_ne (x : String) (m : List SearchResult) (r : SearchResult)
    (h : r.id ≠ x) : entriesFor x (aggStep m r) = entriesFor x m := by
  unfold aggStep
  by_cases h0 : r.id = ""
  · rw [if_pos h0]
  · rw [if_neg h0]
    rcases hany : m.any (fun e => e.id = r.id) with _ | _
    · simp only [Bool.false_eq_true, if_false]
      rw [entriesFor_append]
      have hnil : entriesFor x [initEntry r] = [] := by
        simp [entriesFor, initEntry_id, h]
      rw [hnil, List.append_nil]
    · simp only [if_true]
      exact filter_map_update_ne x r h m

/-- `aggStep` with a result whose id `x` is already present merges into the
unique `x`-entry. -/
theorem entriesFor_aggStep_merge (x : String) (m : List SearchResult)
    (r e : SearchResult) (hr : r.id = x) (hx : x ≠ "")
    (he : entriesFor x m = [e]) :
    entriesFor x (aggStep m r) = [mergeEntry e r] := by
  unfold aggStep
  have h0 : ¬ r.id = "" := by rw [hr]; exact hx
  have hmem : e ∈ m ∧ e.id = x := by
    have h1 : e ∈ entriesFor x m := by rw [he]; exact List.mem_singleton.mpr rfl
    have h2 := List.mem_filter.mp h1
    exact ⟨h2.1, by simpa using h2.2⟩
  have h1 : m.any (fun e => e.id = r.id) = true := by
    rw [List.any_eq_true]
    exact ⟨e, hmem.1, by simp [hmem.2, hr]⟩
  rw [if_neg h0, if_pos (by rw [h1])]
  show (m.map (fun e => if e.id = r.id then mergeEntry e r else e)).filter
      (fun e => e.id = x) = [mergeEntry e r]
  rw [filter_map_update_eq x r hr m]
  rw [show m.filter (fun e : SearchResult => e.id = x) = [e] from he]
  rfl

/-- `aggStep` with a fresh non-empty id appends the initial entry. -/
theorem entriesFor_aggStep_new (x : String) (m : List SearchResult) (r : SearchResult)
    (hr : r.id = x) (hx : x ≠ "") (he : entriesFor x m = []) :
    entriesFor x (aggStep m r) = [initEntry r] := by
  unfold aggStep
  have h0 : ¬ r.id = "" := by rw [hr]; exact hx
  have h1 : m.any (fun e => e.id = r.id) = false := by
    rw [List.any_eq_false]
    intro e hem hc
    have hc' : e.id = x := by rw [hr] at hc; simpa using hc
    have hmem : e ∈ entriesFor x m := List.mem_filter.mpr ⟨hem, by simpa using hc'⟩
    rw [he] at hmem
    exact absurd hmem (List.not_mem_nil e)
  rw [if_neg h0, if_neg (by rw [h1]; simp)]
  rw [entriesFor_append, he]
  simp [entriesFor, initEntry_id, hr]

theorem mergeEntry_query_count (e r : SearchResult) :
    (mergeEntry e r).query_count = e.query_count + 1 := rfl

theorem mergeEntry_score_formula (e r : SearchResult) :
    (mergeEntry e r).score
      = (e.score * (e.query_count : ℚ) + r.score * 1) / ((e.query_count + 1 : ℕ) : ℚ) := rfl

theorem mergeEntry_final_score (e r : SearchResult) :
    (mergeEntry e r).final_score
      = some ((mergeEntry e r).score * (1 + (e.query_count : ℚ) * (1/10))) := rfl

theorem initEntry_query_count (r : SearchResult) : (initEntry r).query_count = 1 := rfl

theorem initEntry_score (r : SearchResult) : (initEntry r).score = r.score := rfl

theorem initEntry_final_score (r : SearchResult) :
    (initEntry r).final_score = some r.score := rfl

theorem entriesFor_cons_pos (x : String) (r : SearchResult) (rs : List SearchResult)
    (h : r.id = x) : entriesFor x (r :: rs) = r :: entriesFor x rs :=
  List.filter_cons_of_pos (by simp [h])

theorem entriesFor_cons_neg (x : String) (r : SearchResult) (rs : List SearchResult)
    (h : r.id ≠ x) : entriesFor x (r :: rs) = entriesFor x rs :=
  List.filter_cons_of_neg (by simp [h])

/-- The aggregation fold invariant: starting from a map whose unique
`x`-entry averages `S` over weight `W`, folding further results whose
`x`-scores are `ts` yields a unique `x`-entry of weight `W + |ts|`, average
`(S + Σts)/(W + |ts|)`, boosted (whenever at least one merge happened) by
`1 + (weight − 1)/10`. -/
theorem agg_fold_stats (x : String) (hx : x ≠ "") :
    ∀ (rs m : List SearchResult) (e : SearchResult) (S : ℚ) (W : ℕ),
      0 < W → entriesFor x m = [e] → e.score = S / (W : ℚ) → e.query_count = W →
      ∃ e', entriesFor x (rs.foldl aggStep m) = [e'] ∧
        e'.query_count = W + (entriesFor x rs).length ∧
        e'.score = (S + ((entriesFor x rs).map (fun r => r.score)).sum)
          / ((W + (entriesFor x rs).length : ℕ) : ℚ) ∧
        ((entriesFor x rs).length = 0 → e' = e) ∧
        (0 < (entriesFor x rs).length →
          e'.final_score = some (e'.score *
            (1 + ((W + (entriesFor x rs).length - 1 : ℕ) : ℚ) * (1/10)))) := by
  intro rs
  induction rs with
  | nil =>
    intro m e S W hW he hs hq
    refine ⟨e, he, ?_, ?_, fun _ => rfl, ?_⟩
    · simp [entriesFor, hq]
    · simp [entriesFor, hs]
    · intro h
      simp [entriesFor] at h
  | cons r rs IH =>
    intro m e S W hW he hs hq
    rw [List.foldl_cons]
    by_cases hr : r.id = x
    · have hstep := entriesFor_aggStep_merge x m r e hr hx he
      have hW0 : ((W : ℚ)) ≠ 0 := Nat.cast_ne_zero.mpr (Nat.pos_iff_ne_zero.mp hW)
      have hq2 : (mergeEntry e r).query_count = W + 1 := by
        rw [mergeEntry_query_count, hq]
      have hs2 : (mergeEntry e r).score = (S + r.score) / ((W + 1 : ℕ) : ℚ) := by
        rw [mergeEntry_score_formula, hq, hs, div_mul_cancel₀ _ hW0, mul_one]
      obtain ⟨e', h1, h2, h3, h4, h5⟩ :=
        IH (aggStep m r) (mergeEntry e r) (S + r.score) (W + 1) (Nat.succ_pos W)
          hstep hs2 hq2
      rw [entriesFor_cons_pos x r rs hr]
      refine ⟨e', h1, ?_, ?_, ?_, ?_⟩
      · rw [List.length_cons, h2]
        omega
      · rw [List.length_cons, List.map_cons, List.sum_cons, h3]
        have harith : (W + 1) + (entriesFor x rs).length
            = W + ((entriesFor x rs).length + 1) := by omega
        rw [harith]
        ring_nf
      · intro h
        simp at h
      · intro _
        by_cases hk : (entriesFor x rs).length = 0
        · have he' : e' = mergeEntry e r := h4 hk
          rw [List.length_cons, hk]
          rw [he', mergeEntry_final_score, hq]
          have : (W + 1 - 1 : ℕ) = W := by omega
          rw [show (W + 0 + 1 - 1 : ℕ) = W by omega]
        · have hkpos : 0 < (entriesFor x rs).length := Nat.pos_of_ne_zero hk
          have h5' := h5 hkpos
          rw [List.length_cons, h5']
          have : (W + 1 + (entriesFor x rs).length - 1 : ℕ)
              = (W + ((entriesFor x rs).length + 1) - 1 : ℕ) := by omega
          rw [this]
    · have hstep := entriesFor_aggStep_ne x m r hr
      rw [entriesFor_cons_neg x r rs hr]
      exact IH (aggStep m r) e S W hW (hstep.trans he) hs hq

/-- Aggregation fold, starting with no `x`-entry in the map. -/
theorem agg_fold_stats_empty (x : String) (hx : x ≠ "") :
    ∀ (rs m : List SearchResult), entriesFor x m = [] →
      0 < (entriesFor x rs).length →
      ∃ e', entriesFor x (rs.foldl aggStep m) = [e'] ∧
        e'.query_count = (entriesFor x rs).length ∧
        e'.score = ((entriesFor x rs).map (fun r => r.score)).sum
          / (((entriesFor x rs).length : ℕ) : ℚ) ∧
        ((entriesFor x rs).length = 1 → e'.final_score = some e'.score) ∧
        (1 < (entriesFor x rs).length →
          e'.final_score = some (e'.score *
            (1 + (((entriesFor x rs).length - 1 : ℕ) : ℚ) * (1/10)))) := by
  intro rs
  induction rs with
  | nil =>
    intro m he hpos
    simp [entriesFor] at hpos
  | cons r rs IH =>
    intro m he hpos
    rw [List.foldl_cons]
    by_cases hr : r.id = x
    · have hstep := entriesFor_aggStep_new x m r hr hx he
      have hs0 : (initEntry r).score = r.score / ((1 : ℕ) : ℚ) := by
        rw [initEntry_score]
        norm_num
      obtain ⟨e', h1, h2, h3, h4, h5⟩ :=
        agg_fold_stats x hx rs (aggStep m r) (initEntry r) r.score 1 Nat.one_pos
          hstep hs0 (initEntry_query_count r)
      rw [entriesFor_cons_pos x r rs hr]
      refine ⟨e', h1, ?_, ?_, ?_, ?_⟩
      · rw [List.length_cons, h2]
        omega
      · rw [List.length_cons, List.map_cons, List.sum_cons, h3]
        rw [show (1 + (entriesFor x rs).length : ℕ) = (entriesFor x rs).length + 1 by omega]
      · intro hone
        rw [List.length_cons] at hone
        have hk : (entriesFor x rs).length = 0 := by omega
        have he' : e' = initEntry r := h4 hk
        rw [he', initEntry_final_score, initEntry_score]
      · intro hgt
        rw [List.length_cons] at hgt
        have hkpos : 0 < (entriesFor x rs).length := by omega
        have h5' := h5 hkpos
        rw [List.length_cons, h5']
        rw [show (1 + (entriesFor x rs).length - 1 : ℕ)
            = ((entriesFor x rs).length + 1 - 1 : ℕ) by omega]
    · have hstep := entriesFor_aggStep_ne x m r hr
      rw [entriesFor_cons_neg x r rs hr]
      rw [entriesFor_cons_neg x r rs hr] at hpos
      exact IH (aggStep m r) (hstep.trans he) hpos

/-- C1: on a hit list in which exactly two entries share experience id `x`
(scaled scores `s1`, `s2`) and every other id occurs at most once, the
deduplicating merge `_aggregate_multi_query_results` produces exactly one
entry for `x`, with `final_score = ((s1+s2)/2) × 1.1`. -/
theorem aggregator_merges_duplicate_pair (results : List SearchResult) (x : String)
    (s1 s2 : ℚ) (hx : x ≠ "")
    (htwo : (entriesFor x results).map (fun r => r.score) = [s1, s2])
    (hothers : ∀ y, y ≠ x → (entriesFor y results).length ≤ 1) :
    ∃ e, entriesFor x (aggregate_multi_query_results results) = [e] ∧
      e.final_score = some (((s1 + s2) / 2) * (11/10)) := by
  have hlen : (entriesFor x results).length = 2 := by
    have h := congrArg List.length htwo
    simpa using h
  unfold aggregate_multi_query_results
  obtain ⟨e', h1, h2, h3, h4, h5⟩ :=
    agg_fold_stats_empty x hx results [] rfl (by rw [hlen]; norm_num)
  refine ⟨e', h1, ?_⟩
  have hsum : ((entriesFor x results).map (fun r => r.score)).sum = s1 + s2 := by
    rw [htwo]
    simp
  have h5' := h5 (by rw [hlen]; norm_num)
  rw [h5', h3, hsum, hlen]
  norm_num

/-- Witness for C1 at a concrete input: ids `["a", "b", "a"]` with scaled
scores `3/5`, `1/2`, `2/5`; the merged `"a"` entry gets final score
`((3/5 + 2/5)/2) × 1.1 = 11/20`. -/
theorem aggregator_merges_duplicate_pair_witness :
    ∃ e, entriesFor "a" (aggregate_multi_query_results
        [{ id := "a", score := 3/5 }, { id := "b", score := 1/2 },
         { id := "a", score := 2/5 }])
      = [e] ∧ e.final_score = some (((3/5 + 2/5) / 2) * (11/10)) := by
  apply aggregator_merges_duplicate_pair
  · decide
  · rfl
  · intro y hy
    unfold entriesFor
    by_cases hb : ("b" : String) = y
    · subst hb
      simp [hy]
    · have ha : (("a" : String) = y) = False := by
        simp
        intro h
        exact hy h.symm
      simp [List.filter, ha, hb]

/-! ## C2 and C3: error behaviour of the multi-query search -/

/-- If `search_experiences` succeeds, the backend call succeeded. -/
theorem search_experiences_ok_backend_ok
    (backend : String → Nat → Except PyErr (List BackendHit)) (q : String) (L : Nat)
    (M : Option ℚ) (rs : List SearchResult)
    (h : search_experiences backend q L M = .ok rs) :
    ∃ hits, backend q L = .ok hits := by
  unfold search_experiences at h
  rcases hb : backend q L with e | hits
  · rw [hb] at h
    exact absurd h (by simp)
  · exact ⟨hits, rfl⟩

/-- If some query dict in the list has non-empty stripped text and its
backend call fails at the loop's limit, the whole query loop raises. -/
theorem runQueries_fails (backend : String → Nat → Except PyErr (List BackendHit))
    (L : Nat) (M : Option ℚ) :
    ∀ (queries : List SearchQuery) (q : SearchQuery), q ∈ queries →
      q.query.pyStrip ≠ "" → (∃ err, backend q.query.pyStrip L = .error err) →
      ∃ e, runQueries backend L M (queries.map QueryElem.asDict) = .error e := by
  intro queries
  induction queries with
  | nil =>
    intro q hmem
    exact absurd hmem (List.not_mem_nil q)
  | cons p rest IH =>
    intro q hmem htext hfail
    rw [List.map_cons]
    show ∃ e, runQueries backend L M (QueryElem.asDict p :: rest.map QueryElem.asDict)
      = .error e
    rw [runQueries]
    simp only [pyGetQuery]
    by_cases hempty : p.query.pyStrip = ""
    · rw [if_pos hempty]
      have hpq : p ≠ q := fun hpq => htext (hpq ▸ hempty)
      have hqrest : q ∈ rest := by
        rcases List.mem_cons.mp hmem with h | h
        · exact absurd h.symm hpq
        · exact h
      exact IH q hqrest htext hfail
    · rw [if_neg hempty]
      rcases hse : search_experiences backend p.query.pyStrip L M with e | rs
      · exact ⟨e, rfl⟩
      · have hpq : p ≠ q := by
          intro hpq
          obtain ⟨err, herr⟩ := hfail
          obtain ⟨hits, hok⟩ := search_experiences_ok_backend_ok backend p.query.pyStrip L M rs hse
          rw [hpq] at hok
          rw [hok] at herr
          exact absurd herr (by simp)
        have hqrest : q ∈ rest := by
          rcases List.mem_cons.mp hmem with h | h
          · exact absurd h.symm hpq
          · exact h
        obtain ⟨e, he⟩ := IH q hqrest htext hfail
        rw [he]
        exact ⟨e, rfl⟩

/-- Amendment of C3: a backend failure on any query with non-empty text is
NOT absorbed — `search_experiences_multi_query` raises `WeaviateDataError`
(so results from surviving queries are not returned; an empty list is
returned only for an empty query list, never as the all-queries-failed
case). -/
theorem multi_query_raises_on_any_backend_failure
    (backend : String → Nat → Except PyErr (List BackendHit))
    (queries : List SearchQuery) (limit : Option Nat) (min_score : Option ℚ)
    (deduplicate : Bool) (q : SearchQuery) (hmem : q ∈ queries)
    (htext : q.query.pyStrip ≠ "")
    (hfail : ∀ n, ∃ err, backend q.query.pyStrip n = .error err) :
    ∃ msg, search_experiences_multi_query backend (queries.map QueryElem.asDict)
        limit min_score deduplicate = .error (.weaviateDataError msg) := by
  have hne : queries.map QueryElem.asDict ≠ [] := by
    intro h
    rw [List.map_eq_nil] at h
    rw [h] at hmem
    exact absurd hmem (List.not_mem_nil q)
  unfold search_experiences_multi_query
  rw [if_neg hne]
  obtain ⟨e, he⟩ := runQueries_fails backend ((limit.getD 10) * 2) min_score queries q
    hmem htext (hfail _)
  simp only [he]
  exact ⟨_, rfl⟩

/-- Witness for the C3 amendment: query `"a"`'s backend is down, query
`"b"`'s works; the whole multi-query search raises. -/
theorem multi_query_raises_on_any_backend_failure_witness :
    ∃ msg, search_experiences_multi_query
        (fun t _ => if t = "a" then .error (.valueError "backend down")
                    else .ok [{ id := "e1", score := 9/10 }])
        ([{ query := "a" }, { query := "b" }].map QueryElem.asDict)
        (some 5) none true = .error (.weaviateDataError msg) := by
  apply multi_query_raises_on_any_backend_failure
    _ _ _ _ _ ({ query := "a" } : SearchQuery)
  · exact List.mem_cons_self _ _
  · decide
  · intro n
    exact ⟨.valueError "backend down", rfl⟩

/-- Counterexample to C3 as stated: with query `"a"` failing and query
`"b"` succeeding with a hit, the aggregator does not return the surviving
query's hits — the call raises `WeaviateDataError`. -/
theorem multi_query_partial_failure_counterexample :
    search_experiences_multi_query
        (fun t _ => if t = "a" then .error (.valueError "backend down")
                    else .ok [{ id := "e1", score := 9/10 }])
        [QueryElem.asDict { query := "a" }, QueryElem.asDict { query := "b" }]
        (some 5) none true
      = .error (.weaviateDataError
          "Multi-query search failed: Failed to search experiences: backend down") := by
  rfl

/-- C2: for every backend and every non-empty list of generated query
dicts, the matcher's search stage raises `DatabaseError` instead of
returning hits: it hands `search_experiences_multi_query` plain strings,
whose `.get('query')` access fails with `AttributeError` and is re-raised
(and when every dict's query text is falsy it raises directly), so no
multi-query search via the matcher can succeed. -/
theorem matcher_search_stage_always_raises
    (backend : String → Nat → Except PyErr (List BackendHit))
    (max_experiences : Nat) (min_relevance_score : ℚ)
    (search_queries : List SearchQuery) (hne : search_queries ≠ []) :
    ∃ msg, search_relevant_experiences backend max_experiences min_relevance_score
        search_queries = .error (.databaseError msg) := by
  unfold search_relevant_experiences
  rcases hq : (search_queries.filter (fun q => q.query ≠ "")).map (fun q => q.query) with
    _ | ⟨s, rest⟩
  · simp only [hq]
    exact ⟨_, rfl⟩
  · simp only [hq]
    have hcons : (s :: rest).map QueryElem.asStr ≠ [] := by simp
    have hrun : runQueries backend (((some max_experiences).getD 10) * 2)
        (some min_relevance_score) ((s :: rest).map QueryElem.asStr)
        = .error (.attributeError "'str' object has no attribute 'get'") := by
      rw [List.map_cons]
      rw [runQueries]
      rfl
    unfold search_experiences_multi_query
    rw [if_neg hcons]
    simp only [hrun]
    exact ⟨_, rfl⟩

/-- Witness for C2: one generated query dict with text `"python"`, a
backend that would answer everything — the stage still raises
`DatabaseError`. -/
theorem matcher_search_stage_always_raises_witness :
    ∃ msg, search_relevant_experiences (fun _ _ => .ok []) 10 (1/2)
        [{ query := "python" }] = .error (.databaseError msg) :=
  matcher_search_stage_always_raises _ 10 (1/2) [{ query := "python" }] (by decide)

/-! ## C9: fallback behaviour of the query-generation stage -/

/-- Counterexample to C9 as stated: when the optimizer RETURNS an empty
list (without raising), `_generate_search_queries` does not fall back — it
returns the empty list, which is not the fallback query — and the
subsequent search stage raises `DatabaseError`, failing the run. -/
theorem empty_optimizer_output_fails_run_counterexample :
    generate_search_queries_stage (.ok []) { skills_mentioned := ["python", "docker"] } = []
    ∧ ([] : List SearchQuery)
        ≠ [fallbackQueryDict { skills_mentioned := ["python", "docker"] }]
    ∧ search_relevant_experiences (fun _ _ => .ok []) 10 (1/2)
        (generate_search_queries_stage (.ok []) { skills_mentioned := ["python", "docker"] })
      = .error (.databaseError "Experience search failed: No valid search queries generated") :=
  ⟨rfl, by decide, rfl⟩

/-- Amendment of C9: the top-5-skills fallback query is built only when the
optimizer call RAISES; when it returns an empty list without raising, the
matcher proceeds with zero queries and its search stage then raises
`DatabaseError("Experience search failed: No valid search queries
generated")`, failing the request instead of letting the run proceed. -/
theorem fallback_query_only_on_raise (job : JobDescription) (e : PyErr)
    (backend : String → Nat → Except PyErr (List BackendHit))
    (max_experiences : Nat) (min_relevance_score : ℚ) :
    generate_search_queries_stage (.error e) job = [fallbackQueryDict job]
    ∧ generate_search_queries_stage (.ok []) job = []
    ∧ search_relevant_experiences backend max_experiences min_relevance_score
        (generate_search_queries_stage (.ok []) job)
      = .error (.databaseError "Experience search failed: No valid search queries generated") :=
  ⟨rfl, rfl, rfl⟩

/-! ## C4: behaviour of `refine_experience` when every AI attempt fails -/

/-- If the AI oracle fails on every attempt, `_call_openai_refinement`
raises `OpenAIIntegrationError` (for any retry budget). -/
theorem call_openai_all_attempts_fail (ai : String → Nat → Except PyErr AIResponse)
    (hfail : ∀ p n, ∃ err, ai p n = .error err) (prompt : String) :
    ∀ (fuel attempt : Nat), ∃ msg,
      call_openai_refinement.go ai prompt attempt fuel = .error (.openaiIntegrationError msg) := by
  intro fuel
  induction fuel with
  | zero =>
    intro attempt
    exact ⟨"Maximum retries exceeded", rfl⟩
  | succ fuel' IH =>
    intro attempt
    obtain ⟨err, herr⟩ := hfail prompt attempt
    rw [call_openai_refinement.go, herr]
    show ∃ msg, (if fuel' = 0 then
        Except.error (PyErr.openaiIntegrationError
          ("All OpenAI attempts failed: " ++ err.message))
      else call_openai_refinement.go ai prompt (attempt + 1) fuel')
      = Except.error (PyErr.openaiIntegrationError msg)
    by_cases h0 : fuel' = 0
    · rw [if_pos h0]
      exact ⟨_, rfl⟩
    · rw [if_neg h0]
      exact IH (attempt + 1)

/-- Counterexample to C4 as stated: with a concrete experience and an AI
oracle that raises on every attempt, `refine_experience` RAISES
`ExperienceRefinementError` — it does not return a fallback
`RefinedExperience`. -/
theorem refine_experience_raises_counterexample :
    refine_experience (fun _ _ _ _ => "p") (fun _ _ => .error (.valueError "boom")) 3 []
        { id := "e1", company := "Acme", text := "built data pipelines" } none "general" none
      = .error (.experienceRefinementError
          "Experience refinement failed: All OpenAI attempts failed: boom") := by
  rfl

/-- Amendment of C4: when the AI raises on every attempt, the
single-experience `refine_experience` raises `ExperienceRefinementError`;
the record with `accomplishments = [experience.text]` and
`confidenceScore = 0.5` (and `relevanceScore = 0.0`, notes "Fallback
processing") is produced one level up, by
`_fallback_individual_refinement`, for every experience that passes the
`RefinedExperience` validation (non-blank id and company, text trimmed and
≥ 10 characters). -/
theorem refine_failure_yields_fallback_record
    (build_prompt : Experience → Option JobDescription → String → Option String → String)
    (ai : String → Nat → Except PyErr AIResponse) (max_retries : Nat)
    (experience : Experience) (job_context : Option JobDescription)
    (hfail : ∀ p n, ∃ err, ai p n = .error err)
    (hid : experience.id.pyStrip ≠ "")
    (hco : experience.company.pyStrip ≠ "")
    (htext : experience.text.pyStrip = experience.text)
    (hlen : 10 ≤ experience.text.length) :
    (∃ msg, refine_experience build_prompt ai max_retries [] experience job_context
        "general" none = .error (.experienceRefinementError msg))
    ∧ ∃ r, fallback_individual_refinement build_prompt ai max_retries [] [experience]
          job_context = .ok [r]
        ∧ r.accomplishments = [experience.text]
        ∧ r.confidence_score = 1/2
        ∧ r.relevance_score = 0
        ∧ r.refinement_notes = "Fallback processing" := by
  obtain ⟨msg, hcall⟩ := call_openai_all_attempts_fail ai hfail
    (build_prompt experience job_context "general" none) max_retries 0
  have hcall' : call_openai_refinement ai
      (build_prompt experience job_context "general" none) max_retries
      = .error (.openaiIntegrationError msg) := hcall
  have hst : refine_experience_st build_prompt ai max_retries [] experience job_context
      "general" none
      = (.error (.experienceRefinementError ("Experience refinement failed: " ++ msg)), []) := by
    unfold refine_experience_st
    simp only [List.lookup_nil, hcall']
    rfl
  have hacc : cleanAccomplishments [experience.text] = [experience.text] := by
    unfold cleanAccomplishments
    rw [List.map_singleton, htext]
    rw [List.filter_cons_of_pos (by simpa using hlen)]
    rfl
  have hmk : mkRefinedExperience experience.id experience.company experience.role
      [experience.text] experience.skills [] 0 (1/2) [] "Fallback processing"
      = .ok { original_experience_id := experience.id.pyStrip
              company := experience.company.pyStrip
              role := experience.role
              accomplishments := [experience.text]
              skills := cleanSkillList experience.skills
              tools_technologies := cleanSkillList []
              relevance_score := 0
              confidence_score := 1/2
              keywords_matched := cleanSkillList []
              refinement_notes := "Fallback processing" } := by
    unfold mkRefinedExperience
    rw [if_neg hid, if_neg hco, if_neg (by simp), if_neg (by rw [hacc]; simp),
      if_neg (by norm_num), if_neg (by norm_num), hacc]
  constructor
  · exact ⟨"Experience refinement failed: " ++ msg,
      by unfold refine_experience; rw [hst]⟩
  · refine ⟨{ original_experience_id := experience.id.pyStrip
              company := experience.company.pyStrip
              role := experience.role
              accomplishments := [experience.text]
              skills := cleanSkillList experience.skills
              tools_technologies := cleanSkillList []
              relevance_score := 0
              confidence_score := 1/2
              keywords_matched := cleanSkillList []
              refinement_notes := "Fallback processing" }, ?_, rfl, rfl, rfl, rfl⟩
    unfold fallback_individual_refinement
    rw [hst]
    simp only [hmk]
    rw [fallback_individual_refinement]

/-- Witness for the C4 amendment at a concrete input. -/
theorem refine_failure_yields_fallback_record_witness :
    (∃ msg, refine_experience (fun _ _ _ _ => "p") (fun _ _ => .error (.valueError "boom")) 2 []
        { id := "e1", company := "Acme", text := "built data pipelines" } none
        "general" none = .error (.experienceRefinementError msg))
    ∧ ∃ r, fallback_individual_refinement (fun _ _ _ _ => "p")
          (fun _ _ => .error (.valueError "boom")) 2 []
          [{ id := "e1", company := "Acme", text := "built data pipelines" }] none = .ok [r]
        ∧ r.accomplishments = ["built data pipelines"]
        ∧ r.confidence_score = 1/2
        ∧ r.relevance_score = 0
        ∧ r.refinement_notes = "Fallback processing" :=
  refine_failure_yields_fallback_record _ _ 2 _ none
    (fun _ _ => ⟨.valueError "boom", rfl⟩) (by decide) (by decide) (by decide) (by decide)

/-! ## C10: shape of the batch-parse result -/

/-- Evaluation of `_parse_refinement_result` on the missing-index fallback
dict, for any experience passing validation. -/
theorem parse_fallback_eval (e : Experience) (job : Option JobDescription)
    (hid : e.id.pyStrip ≠ "") (hco : e.company.pyStrip ≠ "")
    (hacc : cleanAccomplishments [e.text] ≠ []) :
    parse_refinement_result e (missingBatchFallback e) job
      = .ok { original_experience_id := e.id.pyStrip
              company := e.company.pyStrip
              role := e.role
              accomplishments := cleanAccomplishments [e.text]
              skills := cleanSkillList (pyDictFromKeys e.skills)
              tools_technologies := []
              relevance_score := 1/2
              confidence_score := 4/5
              keywords_matched := []
              refinement_notes := "" } := by
  have hmk : mkRefinedExperience e.id e.company e.role [e.text]
      (pyDictFromKeys (e.skills ++ [] ++ [] ++ [])) [] (1/2) (4/5)
      (pyDictFromKeys ([] ++ [])) ""
      = .ok { original_experience_id := e.id.pyStrip
              company := e.company.pyStrip
              role := e.role
              accomplishments := cleanAccomplishments [e.text]
              skills := cleanSkillList (pyDictFromKeys e.skills)
              tools_technologies := []
              relevance_score := 1/2
              confidence_score := 4/5
              keywords_matched := []
              refinement_notes := "" } := by
    unfold mkRefinedExperience
    rw [if_neg hid, if_neg hco, if_neg (show ¬ (([e.text] : List String) = []) by simp),
      if_neg hacc, if_neg (by norm_num), if_neg (by norm_num)]
    simp [pyDictFromKeys, dedupKeepFirst, dedupSeen, cleanSkillList, cleanSkillList.go]
  unfold parse_refinement_result
  simp only [missingBatchFallback]
  rw [if_pos (show ¬ (([e.text] : List String) = []) by simp)]
  rw [if_neg (show ¬ ((1/2 : ℚ) = 0) by norm_num)]
  rw [hmk]

/-- If parsing the fallback dict for `e` succeeds at all, the resulting
record's fields are the validated fallback values. -/
theorem parse_fallback_fields (e : Experience) (job : Option JobDescription)
    (r : RefinedExperience)
    (h : parse_refinement_result e (missingBatchFallback e) job = .ok r) :
    r.relevance_score = 1/2 ∧
    r.accomplishments = cleanAccomplishments [e.text] ∧
    r.skills = cleanSkillList (pyDictFromKeys e.skills) := by
  unfold parse_refinement_result at h
  simp only [missingBatchFallback] at h
  rw [if_pos (show ¬ (([e.text] : List String) = []) by simp)] at h
  rw [if_neg (show ¬ ((1/2 : ℚ) = 0) by norm_num)] at h
  rcases hmk : mkRefinedExperience e.id e.company e.role [e.text]
      (pyDictFromKeys (e.skills ++ [] ++ [] ++ [])) [] (1/2) (4/5)
      (pyDictFromKeys ([] ++ [])) "" with err | r'
  · rw [hmk] at h
    exact absurd h (by simp)
  · rw [hmk] at h
    have hr : r' = r := by
      simpa using h
    unfold mkRefinedExperience at hmk
    split_ifs at hmk
    all_goals try exact Except.noConfusion hmk
    have hrec := Except.ok.inj hmk
    subst hr
    refine ⟨?_, ?_, ?_⟩
    · rw [← hrec]
    · rw [← hrec]
    · rw [← hrec]
      show cleanSkillList (pyDictFromKeys (e.skills ++ [] ++ [] ++ []))
        = cleanSkillList (pyDictFromKeys e.skills)
      simp

/-- Shape of the enumerated batch-parse loop: on success, one record per
input in order, the `j`-th parsed against the entry found for absolute
index `i + j` (or the fallback dict). -/
theorem parseBatchAux_shape (ai : AIResponse) (job : Option JobDescription) :
    ∀ (origs : List Experience) (i : Nat) (l : List RefinedExperience),
      parseBatchAux ai job i origs = .ok l →
      l.length = origs.length ∧
      ∀ j (hj : j < origs.length) (hj' : j < l.length),
        parse_refinement_result (origs.get ⟨j, hj⟩)
          (match findBatchEntry ai.refined_experiences (i + j) with
           | some b => b.data
           | none => missingBatchFallback (origs.get ⟨j, hj⟩)) job
          = .ok (l.get ⟨j, hj'⟩) := by
  intro origs
  induction origs with
  | nil =>
    intro i l h
    have hl : l = [] := by
      rw [parseBatchAux] at h
      simpa using h.symm
    subst hl
    exact ⟨rfl, fun j hj => absurd hj (by simp)⟩
  | cons e rest IH =>
    intro i l h
    rw [parseBatchAux] at h
    rcases hp : parse_refinement_result e
        (match findBatchEntry ai.refined_experiences i with
         | some b => b.data
         | none => missingBatchFallback e) job with err | r
    · rw [hp] at h
      exact absurd h (by simp)
    · rw [hp] at h
      rcases hrest : parseBatchAux ai job (i + 1) rest with err | l'
      · rw [hrest] at h
        exact absurd h (by simp)
      · rw [hrest] at h
        have hl : l = r :: l' := by simpa using h.symm
        subst hl
        obtain ⟨hlen, hfields⟩ := IH (i + 1) l' hrest
        refine ⟨by simp [hlen], ?_⟩
        intro j hj hj'
        match j with
        | 0 =>
          simpa using hp
        | j' + 1 =>
          have hj2 : j' < rest.length := by simpa using hj
          have hj2' : j' < l'.length := by simpa using hj'
          have := hfields j' hj2 hj2'
          rw [show i + 1 + j' = i + (j' + 1) by omega] at this
          simpa using this

/-- Amendment of C10: when `_parse_batch_refinement_result` succeeds it
returns exactly one record per input experience, in input order; an input
index with no matching `original_index` entry receives the fallback record
with relevance 0.5, accomplishments `[experience.text]` (validator-cleaned)
and the experience's skills deduplicated (exact first-occurrence dedup, then
the validator's trim + case-insensitive dedup) — not necessarily the
original skills list verbatim.  (On malformed entries the whole parse
raises `ValidationError` instead of returning a list.) -/
theorem parse_batch_one_record_per_input (origs : List Experience) (ai : AIResponse)
    (job : Option JobDescription) (l : List RefinedExperience)
    (h : parse_batch_refinement_result origs ai job = .ok l) :
    l.length = origs.length ∧
    ∀ j (hj : j < origs.length) (hj' : j < l.length),
      findBatchEntry ai.refined_experiences j = none →
        (l.get ⟨j, hj'⟩).relevance_score = 1/2 ∧
        (l.get ⟨j, hj'⟩).accomplishments
          = cleanAccomplishments [(origs.get ⟨j, hj⟩).text] ∧
        (l.get ⟨j, hj'⟩).skills
          = cleanSkillList (pyDictFromKeys (origs.get ⟨j, hj⟩).skills) := by
  have haux : parseBatchAux ai job 0 origs = .ok l := by
    unfold parse_batch_refinement_result at h
    rcases hb : parseBatchAux ai job 0 origs with err | l'
    · rw [hb] at h
      exact absurd h (by simp)
    · rw [hb] at h
      have hll : l' = l := by simpa using h
      rw [hll]
  obtain ⟨hlen, hfields⟩ := parseBatchAux_shape ai job origs 0 l haux
  refine ⟨hlen, ?_⟩
  intro j hj hj' hnone
  have hp := hfields j hj hj'
  rw [show (0 + j) = j from by omega, hnone] at hp
  exact parse_fallback_fields _ job _ hp

/-- Concrete evaluation of the batch parse on `sampleExperience` with an
AI result carrying no entries. -/
theorem parse_batch_sample_eval :
    parse_batch_refinement_result [sampleExperience] {} none
      = .ok [sampleFallbackRecord] := by
  have hpf' : parse_refinement_result sampleExperience
      (missingBatchFallback sampleExperience) none = .ok sampleFallbackRecord := by
    rw [parse_fallback_eval sampleExperience none (by decide) (by decide) (by decide)]
    rfl
  unfold parse_batch_refinement_result
  have hb : parseBatchAux ({} : AIResponse) none 0 [sampleExperience]
      = .ok [sampleFallbackRecord] := by
    rw [parseBatchAux]
    rw [show findBatchEntry ([] : List BatchItem) 0 = none from rfl]
    simp only [hpf']
    rw [parseBatchAux]
  rw [hb]

/-- Counterexample to C10 as stated: for `sampleExperience` (skills
`["Python", "Python"]`) with no matching batch entry, the fallback record's
skills are `["Python"]` — deduplicated, not equal to the original skills
list. -/
theorem parse_batch_fallback_skills_counterexample :
    parse_batch_refinement_result [sampleExperience] {} none
        = .ok [sampleFallbackRecord]
    ∧ sampleFallbackRecord.skills = ["Python"]
    ∧ sampleExperience.skills = ["Python", "Python"]
    ∧ sampleFallbackRecord.skills ≠ sampleExperience.skills :=
  ⟨parse_batch_sample_eval, rfl, rfl, by decide⟩

/-- Witness for the C10 amendment at the concrete sample input. -/
theorem parse_batch_one_record_per_input_witness :
    ([sampleFallbackRecord] : List RefinedExperience).length
        = ([sampleExperience] : List Experience).length ∧
    ∀ j (hj : j < ([sampleExperience] : List Experience).length)
      (hj' : j < ([sampleFallbackRecord] : List RefinedExperience).length),
      findBatchEntry ({} : AIResponse).refined_experiences j = none →
        (([sampleFallbackRecord] : List RefinedExperience).get ⟨j, hj'⟩).relevance_score = 1/2 ∧
        (([sampleFallbackRecord] : List RefinedExperience).get ⟨j, hj'⟩).accomplishments
          = cleanAccomplishments [(([sampleExperience] : List Experience).get ⟨j, hj⟩).text] ∧
        (([sampleFallbackRecord] : List RefinedExperience).get ⟨j, hj'⟩).skills
          = cleanSkillList (pyDictFromKeys
              (([sampleExperience] : List Experience).get ⟨j, hj⟩).skills) :=
  parse_batch_one_record_per_input [sampleExperience] {} none [sampleFallbackRecord]
    parse_batch_sample_eval

/-! ## C5: order of truncation, filtering and sorting in the refine stage -/

/-- Evaluation of `_parse_refinement_result` on a well-formed AI result dict
with a non-zero relevance score. -/
theorem parse_matched_eval (e : Experience) (job : Option JobDescription)
    (d : AIRefinementData)
    (hid : e.id.pyStrip ≠ "") (hco : e.company.pyStrip ≠ "")
    (haccne : d.refined_accomplishments ≠ [])
    (hacc : cleanAccomplishments d.refined_accomplishments ≠ [])
    (hrel0 : ¬ (d.relevance_score = 0))
    (hrel : ¬ (d.relevance_score < 0 ∨ 1 < d.relevance_score))
    (hconf : ¬ (d.confidence_score < 0 ∨ 1 < d.confidence_score)) :
    parse_refinement_result e d job
      = .ok { original_experience_id := e.id.pyStrip
              company := e.company.pyStrip
              role := e.role
              accomplishments := cleanAccomplishments d.refined_accomplishments
              skills := cleanSkillList (pyDictFromKeys
                (d.key_skills ++ d.relevant_skills ++ d.technical_skills ++ d.soft_skills))
              tools_technologies := cleanSkillList d.tools_technologies
              relevance_score := d.relevance_score
              confidence_score := d.confidence_score
              keywords_matched := cleanSkillList (pyDictFromKeys
                (d.matching_keywords ++ d.extracted_keywords))
              refinement_notes := d.tailoring_notes } := by
  have hmk : mkRefinedExperience e.id e.company e.role d.refined_accomplishments
      (pyDictFromKeys (d.key_skills ++ d.relevant_skills ++ d.technical_skills ++ d.soft_skills))
      d.tools_technologies d.relevance_score d.confidence_score
      (pyDictFromKeys (d.matching_keywords ++ d.extracted_keywords)) d.tailoring_notes
      = .ok { original_experience_id := e.id.pyStrip
              company := e.company.pyStrip
              role := e.role
              accomplishments := cleanAccomplishments d.refined_accomplishments
              skills := cleanSkillList (pyDictFromKeys
                (d.key_skills ++ d.relevant_skills ++ d.technical_skills ++ d.soft_skills))
              tools_technologies := cleanSkillList d.tools_technologies
              relevance_score := d.relevance_score
              confidence_score := d.confidence_score
              keywords_matched := cleanSkillList (pyDictFromKeys
                (d.matching_keywords ++ d.extracted_keywords))
              refinement_notes := d.tailoring_notes } := by
    unfold mkRefinedExperience
    rw [if_neg hid, if_neg hco, if_neg haccne, if_neg hacc, if_neg hrel, if_neg hconf]
  unfold parse_refinement_result
  simp only [ne_eq]
  rw [if_pos haccne, if_neg hrel0, hmk]

theorem c5_parse0 :
    parse_refinement_result
        { id := "e0", company := "Acme", text := "built data pipelines at scale" }
        { refined_accomplishments := ["delivered measurable results"],
          relevance_score := 9/10 }
        (some ({} : JobDescription))
      = .ok c5Record0 := by
  rw [parse_matched_eval _ _ _ (by decide) (by decide) (by decide) (by decide)
    (show ¬ ((9/10 : ℚ) = 0) by norm_num)
    (show ¬ ((9/10 : ℚ) < 0 ∨ 1 < (9/10 : ℚ)) by norm_num)
    (show ¬ ((4/5 : ℚ) < 0 ∨ 1 < (4/5 : ℚ)) by norm_num)]
  rfl

theorem c5_parse1 :
    parse_refinement_result
        { id := "e1", company := "Beta", text := "led a replatforming effort" }
        { refined_accomplishments := ["delivered measurable results"],
          relevance_score := 6/10 }
        (some ({} : JobDescription))
      = .ok c5Record1 := by
  rw [parse_matched_eval _ _ _ (by decide) (by decide) (by decide) (by decide)
    (show ¬ ((6/10 : ℚ) = 0) by norm_num)
    (show ¬ ((6/10 : ℚ) < 0 ∨ 1 < (6/10 : ℚ)) by norm_num)
    (show ¬ ((4/5 : ℚ) < 0 ∨ 1 < (4/5 : ℚ)) by norm_num)]
  rfl

theorem c5_parse_batch_eval :
    parse_batch_refinement_result (c5Experiences.take 2) c5Response
        (some ({} : JobDescription))
      = .ok [c5Record0, c5Record1] := by
  have hb : parseBatchAux c5Response (some ({} : JobDescription)) 0 (c5Experiences.take 2)
      = .ok [c5Record0, c5Record1] := by
    rw [show c5Experiences.take 2
        = [{ id := "e0", company := "Acme", text := "built data pipelines at scale" },
           { id := "e1", company := "Beta", text := "led a replatforming effort" }]
      from rfl]
    rw [parseBatchAux]
    rw [show (match findBatchEntry c5Response.refined_experiences 0 with
        | some b => b.data
        | none => missingBatchFallback
            { id := "e0", company := "Acme", text := "built data pipelines at scale" })
      = ({ refined_accomplishments := ["delivered measurable results"],
           relevance_score := 9/10 } : AIRefinementData) from rfl]
    simp only [c5_parse0]
    rw [parseBatchAux]
    rw [show (match findBatchEntry c5Response.refined_experiences 1 with
        | some b => b.data
        | none => missingBatchFallback
            { id := "e1", company := "Beta", text := "led a replatforming effort" })
      = ({ refined_accomplishments := ["delivered measurable results"],
           relevance_score := 6/10 } : AIRefinementData) from rfl]
    simp only [c5_parse1]
    rw [parseBatchAux]
  unfold parse_batch_refinement_result
  rw [hb]

theorem c5_batch_eval :
    refine_experiences_batch (fun _ _ => "") (fun _ _ _ _ => "")
        (fun _ _ => .ok c5Response) 1 [] c5Experiences (some ({} : JobDescription)) 2
      = .ok [c5Record0, c5Record1] := by
  have hcallok : ∀ p, call_openai_refinement (fun _ _ => .ok c5Response) p 1
      = .ok c5Response := fun _ => rfl
  unfold refine_experiences_batch
  simp only [hcallok, c5_parse_batch_eval]

theorem c5_stage_eval :
    refine_experiences_stage true (fun _ _ => "") (fun _ _ _ _ => "")
        (fun _ _ => .ok c5Response) 1 [] c5Experiences ({} : JobDescription) 2 (1/2)
      = .ok [c5Record0, c5Record1] := by
  have hfilter : List.filter (fun e => decide ((1/2 : ℚ) ≤ e.relevance_score))
      [c5Record0, c5Record1] = [c5Record0, c5Record1] := by
    rw [List.filter_cons_of_pos (by simp only [c5Record0, decide_eq_true_eq]; norm_num),
      List.filter_cons_of_pos (by simp only [c5Record1, decide_eq_true_eq]; norm_num)]
    rfl
  have hsort : List.insertionSort (fun a b => b.relevance_score ≤ a.relevance_score)
      [c5Record0, c5Record1] = [c5Record0, c5Record1] := by
    simp only [List.insertionSort, List.orderedInsert]
    rw [if_pos (show c5Record1.relevance_score ≤ c5Record0.relevance_score by
      simp only [c5Record0, c5Record1]; norm_num)]
  unfold refine_experiences_stage
  rw [if_neg (by simp)]
  rw [c5_batch_eval]
  simp only [hfilter, hsort]

/-- Counterexample to C5 as stated: on the 5-candidate list scored
`[0.9, 0.6, 0.4, 0.8, 0.3]` with `minRelevanceScore = 0.5` and
`maxExperiences = 2`, the refinement-and-filtering stage yields the
experiences scored `[0.9, 0.6]` — not `[0.9, 0.8]`. -/
theorem refine_stage_example_counterexample :
    (refine_experiences_stage true (fun _ _ => "") (fun _ _ _ _ => "")
        (fun _ _ => .ok c5Response) 1 [] c5Experiences ({} : JobDescription) 2
        (1/2)).map (fun l => l.map (fun r => r.relevance_score))
      = .ok [9/10, 6/10]
    ∧ ¬ (((9:ℚ)/10) :: ((6:ℚ)/10) :: [] = ((9:ℚ)/10) :: ((8:ℚ)/10) :: []) := by
  constructor
  · rw [c5_stage_eval]
    rfl
  · norm_num

/-- Amendment of C5: `refine_experiences_batch` truncates the candidate
list to its FIRST `maxExperiences` elements (in input order) before any
refinement; the stage then drops below-threshold scores and stable-sorts
descending — so the example yields the experiences scored `[0.9, 0.6]`. -/
theorem refine_stage_truncates_before_refinement
    (bbp : List Experience → Option JobDescription → String)
    (bp : Experience → Option JobDescription → String → Option String → String)
    (ai : String → Nat → Except PyErr AIResponse) (mr : Nat)
    (cache : List (CacheKey × RefinedExperience))
    (experiences : List Experience) (job : JobDescription)
    (maxE : Nat) (minR : ℚ) (lb : List RefinedExperience)
    (hbatch : refine_experiences_batch bbp bp ai mr cache experiences (some job) maxE
      = .ok lb) :
    refine_experiences_stage true bbp bp ai mr cache experiences job maxE minR
      = .ok (List.insertionSort (fun a b => b.relevance_score ≤ a.relevance_score)
          (lb.filter (fun e => minR ≤ e.relevance_score)))
    ∧ refine_experiences_batch bbp bp ai mr cache experiences (some job) maxE
      = refine_experiences_batch bbp bp ai mr cache (experiences.take maxE) (some job)
          maxE := by
  constructor
  · unfold refine_experiences_stage
    rw [if_neg (by simp)]
    rw [hbatch]
  · unfold refine_experiences_batch
    rw [List.take_take, min_self]

/-- Witness for the C5 amendment at the concrete scenario. -/
theorem refine_stage_truncates_before_refinement_witness :
    refine_experiences_stage true (fun _ _ => "") (fun _ _ _ _ => "")
        (fun _ _ => .ok c5Response) 1 [] c5Experiences ({} : JobDescription) 2 (1/2)
      = .ok (List.insertionSort (fun a b => b.relevance_score ≤ a.relevance_score)
          ([c5Record0, c5Record1].filter (fun e => (1/2 : ℚ) ≤ e.relevance_score)))
    ∧ refine_experiences_batch (fun _ _ => "") (fun _ _ _ _ => "")
        (fun _ _ => .ok c5Response) 1 [] c5Experiences (some ({} : JobDescription)) 2
      = refine_experiences_batch (fun _ _ => "") (fun _ _ _ _ => "")
          (fun _ _ => .ok c5Response) 1 [] (c5Experiences.take 2)
          (some ({} : JobDescription)) 2 :=
  refine_stage_truncates_before_refinement _ _ _ _ _ _ _ _ _ _ c5_batch_eval

/-! ## C7: the ranking / dedup / truncation step -/

/-- Counterexample to C7 as stated: with `max_queries = 0` the loop breaks
only AFTER appending, so one query survives — the output is not truncated
to at most `maxQueries` entries. -/
theorem rank_and_filter_zero_counterexample :
    (rank_and_filter_queries [{ query := "python", priority := 1 }] 0).length = 1
    ∧ ¬ ((rank_and_filter_queries [{ query := "python", priority := 1 }] 0).length ≤ 0) := by
  refine ⟨rfl, ?_⟩
  rw [show (rank_and_filter_queries [{ query := "python", priority := 1 }] 0).length = 1
    from rfl]
  omega

/-- The break-after-append loop equals dedup-then-take, for any accumulator
strictly below the limit. -/
theorem selectUnique_eq (m : Nat) :
    ∀ (l : List SearchQuery) (seen : List String) (acc : List SearchQuery),
      acc.length < m →
      selectUniqueAux m l seen acc
        = acc ++ (dedupByLowerQuery seen l).take (m - acc.length) := by
  intro l
  induction l with
  | nil =>
    intro seen acc _
    simp [selectUniqueAux, dedupByLowerQuery]
  | cons q rest IH =>
    intro seen acc hlt
    rw [selectUniqueAux, dedupByLowerQuery]
    by_cases hseen : q.query.pyLower ∈ seen
    · rw [if_pos hseen, if_pos hseen]
      exact IH seen acc hlt
    · rw [if_neg hseen, if_neg hseen]
      by_cases hfull : m ≤ (acc ++ [q]).length
      · rw [if_pos hfull]
        have hm : m - acc.length = 1 := by
          simp only [List.length_append, List.length_singleton] at hfull
          omega
        rw [hm]
        simp
      · rw [if_neg hfull]
        have hlt' : (acc ++ [q]).length < m := by omega
        rw [IH (q.query.pyLower :: seen) (acc ++ [q]) hlt']
        have hm : m - acc.length = (m - (acc ++ [q]).length) + 1 := by
          simp only [List.length_append, List.length_singleton]
          simp only [List.length_append, List.length_singleton] at hfull
          omega
        rw [hm, List.take_succ_cons]
        simp

theorem assignRanks_eq_spec (l : List SearchQuery) :
    assignRanks l = spec_assign_ranks l := by
  unfold assignRanks spec_assign_ranks
  apply List.map_congr_left
  intro p _
  congr 1
  push_cast
  ring_nf

/-- Amendment of C7: for every `maxQueries ≥ 1` the code's
`_rank_and_filter_queries` is exactly the spec's pipeline (stable sort by
priority descending, case-insensitive first-occurrence dedup, truncation to
`maxQueries`, 1-based rank with `finalPriority = priority ×
(1 − 0.05×(rank−1))`); at `maxQueries = 0` the code still returns one
entry. -/
theorem rank_and_filter_matches_spec (queries : List SearchQuery) (max_queries : Nat)
    (h : 1 ≤ max_queries) :
    rank_and_filter_queries queries max_queries
      = spec_rank_and_filter queries max_queries := by
  unfold rank_and_filter_queries spec_rank_and_filter
  by_cases hq : queries = []
  · subst hq
    simp [List.insertionSort, dedupByLowerQuery, spec_assign_ranks]
  · rw [if_neg hq]
    show assignRanks (selectUniqueAux max_queries
        (List.insertionSort (fun a b => b.priority ≤ a.priority) queries) [] [])
      = spec_assign_ranks ((dedupByLowerQuery []
          (List.insertionSort (fun a b => b.priority ≤ a.priority) queries)).take
            max_queries)
    rw [selectUnique_eq max_queries _ [] [] (by simpa using h)]
    simp only [List.nil_append, Nat.sub_zero]
    exact assignRanks_eq_spec _

/-- Witness for the C7 amendment. -/
theorem rank_and_filter_matches_spec_witness :
    rank_and_filter_queries
        [{ query := "python", priority := 1 }, { query := "Python", priority := 1/2 }] 8
      = spec_rank_and_filter
        [{ query := "python", priority := 1 }, { query := "Python", priority := 1/2 }] 8 :=
  rank_and_filter_matches_spec _ 8 (by norm_num)

/-! ## C6: the primary-skills query always survives ranking -/

theorem tech_queries_priority (job : JobDescription) :
    ∀ q ∈ generate_technology_queries job, q.priority ≤ 9/10 := by
  intro q hq
  obtain ⟨p, -, hp⟩ := List.mem_filterMap.mp hq
  by_cases h2 : 2 ≤ p.2.length
  · rw [if_pos h2] at hp
    rw [← Option.some.inj hp]
  · rw [if_neg h2] at hp
    exact absurd hp (by simp)

theorem resp_queries_priority (eap : String → List String) (job : JobDescription) :
    ∀ q ∈ generate_responsibility_queries eap job, q.priority ≤ 9/10 := by
  intro q hq
  obtain ⟨p, -, hp⟩ := List.mem_filterMap.mp hq
  by_cases h2 : eap p.2 ≠ []
  · rw [if_pos h2] at hp
    rw [← Option.some.inj hp]
    show 8/10 - (p.1 : ℚ) * (1/10) ≤ 9/10
    have h0 : (0:ℚ) ≤ (p.1 : ℚ) * (1/10) := by positivity
    linarith
  · rw [if_neg h2] at hp
    exact absurd hp (by simp)

theorem level_queries_priority (eei : String → List String) (job : JobDescription) :
    ∀ q ∈ generate_experience_level_queries eei job, q.priority ≤ 9/10 := by
  intro q hq
  unfold generate_experience_level_queries at hq
  by_cases hind : eei job.full_text = []
  · rw [if_pos hind] at hq
    exact absurd hq (List.not_mem_nil q)
  · rw [if_neg hind] at hq
    obtain ⟨p, -, hp⟩ := List.mem_filterMap.mp hq
    by_cases h2 : job.skills_mentioned.take 3 ≠ []
    · rw [if_pos h2] at hp
      rw [← Option.some.inj hp]
      norm_num
    · rw [if_neg h2] at hp
      exact absurd hp (by simp)

theorem industry_queries_priority (job : JobDescription) :
    ∀ q ∈ generate_industry_queries job, q.priority ≤ 9/10 := by
  intro q hq
  unfold generate_industry_queries at hq
  by_cases hterm : infer_industry_context job = []
  · rw [if_pos hterm] at hq
    exact absurd hq (List.not_mem_nil q)
  · rw [if_neg hterm] at hq
    by_cases hsk : job.skills_mentioned.take 3 = []
    · rw [if_pos hsk] at hq
      exact absurd hq (List.not_mem_nil q)
    · rw [if_neg hsk] at hq
      rw [List.mem_singleton.mp hq]
      norm_num

theorem keyword_queries_priority (tpm : String → Bool) (job : JobDescription) :
    ∀ q ∈ generate_keyword_queries tpm job, q.priority ≤ 9/10 := by
  intro q hq
  unfold generate_keyword_queries at hq
  by_cases h3 : 3 ≤ ((score_keywords tpm
      (job.extracted_keywords ++ job.skills_mentioned) job.full_text).take 6).length
  · rw [if_pos (by simpa using h3)] at hq
    obtain ⟨p, -, hp⟩ := List.mem_filterMap.mp hq
    by_cases h2 : 2 ≤ p.length
    · rw [if_pos h2] at hp
      rw [← Option.some.inj hp]
      norm_num
    · rw [if_neg h2] at hp
      exact absurd hp (by simp)
  · rw [if_neg (by simpa using h3)] at hq
    exact absurd hq (List.not_mem_nil q)

/-- The select loop never discards its accumulator. -/
theorem selectUnique_prefix (m : Nat) :
    ∀ (l : List SearchQuery) (seen : List String) (acc : List SearchQuery),
      ∃ t, selectUniqueAux m l seen acc = acc ++ t := by
  intro l
  induction l with
  | nil =>
    intro seen acc
    exact ⟨[], by simp [selectUniqueAux]⟩
  | cons q rest IH =>
    intro seen acc
    rw [selectUniqueAux]
    by_cases h1 : q.query.pyLower ∈ seen
    · rw [if_pos h1]
      exact IH seen acc
    · rw [if_neg h1]
      by_cases h2 : m ≤ (acc ++ [q]).length
      · rw [if_pos h2]
        exact ⟨[q], rfl⟩
      · rw [if_neg h2]
        obtain ⟨t, ht⟩ := IH (q.query.pyLower :: seen) (acc ++ [q])
        exact ⟨q :: t, by rw [ht]; simp⟩

/-- A maximal-priority first query survives `_rank_and_filter_queries` with
its `query`, `type` and `priority` fields intact (in fact at rank 1). -/
theorem rank_and_filter_head_top (pq : SearchQuery) (rest : List SearchQuery)
    (m : Nat) (hle : ∀ q ∈ rest, q.priority ≤ 9/10) (hpq : pq.priority = 1) :
    ∃ q ∈ rank_and_filter_queries (pq :: rest) m,
      q.query = pq.query ∧ q.type = pq.type ∧ q.priority = pq.priority := by
  unfold rank_and_filter_queries
  rw [if_neg (List.cons_ne_nil pq rest)]
  have hsortcons : List.insertionSort (fun a b => b.priority ≤ a.priority) (pq :: rest)
      = pq :: List.insertionSort (fun a b => b.priority ≤ a.priority) rest := by
    rw [List.insertionSort]
    rcases hS : List.insertionSort (fun a b => b.priority ≤ a.priority) rest with _ | ⟨s, S'⟩
    · rw [hS]
      rfl
    · have hs : s ∈ rest := by
        have hmem : s ∈ List.insertionSort (fun a b => b.priority ≤ a.priority) rest := by
          rw [hS]
          exact List.mem_cons_self s S'
        exact (List.perm_insertionSort _ rest).mem_iff.mp hmem
      have hcond : s.priority ≤ pq.priority := by
        have := hle s hs
        rw [hpq]
        linarith
      rw [hS, List.orderedInsert, if_pos hcond]
  have hsel : selectUniqueAux m
      (pq :: List.insertionSort (fun a b => b.priority ≤ a.priority) rest) [] []
      = if pq.query.pyLower ∈ ([] : List String) then
          selectUniqueAux m (List.insertionSort (fun a b => b.priority ≤ a.priority) rest)
            [] []
        else
          let acc' := ([] : List SearchQuery) ++ [pq]
          if m ≤ acc'.length then acc'
          else selectUniqueAux m
            (List.insertionSort (fun a b => b.priority ≤ a.priority) rest)
            (pq.query.pyLower :: []) acc' := rfl
  rw [hsortcons]
  show ∃ q ∈ assignRanks (selectUniqueAux m
      (pq :: List.insertionSort (fun a b => b.priority ≤ a.priority) rest) [] []),
    q.query = pq.query ∧ q.type = pq.type ∧ q.priority = pq.priority
  rw [hsel]
  rw [if_neg (List.not_mem_nil _)]
  have hhead : ∀ t : List SearchQuery, ∃ t',
      assignRanks (pq :: t)
        = { pq with rank := 1,
                    final_priority := pq.priority * (1 - ((0:ℕ) : ℚ) * (1/20)) } :: t' := by
    intro t
    refine ⟨(t.enumFrom 1).map (fun p =>
      { p.2 with rank := p.1 + 1,
                 final_priority := p.2.priority * (1 - (p.1 : ℚ) * (1/20)) }), ?_⟩
    rw [assignRanks, List.enum_cons]
    rfl
  by_cases h2 : m ≤ (([] : List SearchQuery) ++ [pq]).length
  · rw [if_pos h2]
    obtain ⟨t', ht'⟩ := hhead []
    rw [show (([] : List SearchQuery) ++ [pq]) = [pq] from rfl, ht']
    exact ⟨_, List.mem_cons_self _ _, rfl, rfl, rfl⟩
  · rw [if_neg h2]
    obtain ⟨t, ht⟩ := selectUnique_prefix m
      (List.insertionSort (fun a b => b.priority ≤ a.priority) rest)
      [pq.query.pyLower] ([] ++ [pq])
    rw [ht]
    obtain ⟨t', ht'⟩ := hhead t
    rw [show (([] : List SearchQuery) ++ [pq]) ++ t = pq :: t from by simp, ht']
    exact ⟨_, List.mem_cons_self _ _, rfl, rfl, rfl⟩

/-- C6: for every JobDescription with non-empty `skillsMentioned`, the
optimizer's output contains a query of type `primary_skills` whose text is
the first min(5, N) skills space-joined, with priority 1.0 — for every
`maxQueries` and whatever the regex oracles extract, since every other
strategy assigns priority ≤ 0.9 and the stable descending sort keeps the
primary query first, where deduplication and the (post-append) truncation
cannot drop it. -/
theorem optimizer_output_contains_primary_skills
    (eap eei : String → List String) (tpm : String → Bool) (ediv : Bool)
    (job : JobDescription) (max_queries : Nat)
    (hskills : job.skills_mentioned ≠ []) :
    ∃ q ∈ generate_search_queries eap eei tpm ediv job max_queries,
      q.query = " ".intercalate (job.skills_mentioned.take 5)
      ∧ q.type = "primary_skills" ∧ q.priority = 1 := by
  have hrest : ∀ q ∈ generate_technology_queries job
      ++ generate_responsibility_queries eap job
      ++ (if ediv then generate_experience_level_queries eei job else [])
      ++ generate_industry_queries job
      ++ generate_keyword_queries tpm job, q.priority ≤ 9/10 := by
    intro q hq
    simp only [List.mem_append] at hq
    rcases hq with ((((h | h) | h) | h) | h)
    · exact tech_queries_priority job q h
    · exact resp_queries_priority eap job q h
    · rcases ediv with _ | _
      · rw [if_neg (by simp)] at h
        exact absurd h (List.not_mem_nil q)
      · rw [if_pos rfl] at h
        exact level_queries_priority eei job q h
    · exact industry_queries_priority job q h
    · exact keyword_queries_priority tpm job q h
  have hprim : generate_primary_skills_query job
      = some { query := " ".intercalate (job.skills_mentioned.take 5)
               type := "primary_skills"
               priority := 1 } := by
    unfold generate_primary_skills_query
    rw [if_neg hskills]
  unfold generate_search_queries
  rw [hprim]
  show ∃ q ∈ rank_and_filter_queries
      ({ query := " ".intercalate (job.skills_mentioned.take 5)
         type := "primary_skills"
         priority := 1 }
        :: (generate_technology_queries job
          ++ generate_responsibility_queries eap job
          ++ (if ediv then generate_experience_level_queries eei job else [])
          ++ generate_industry_queries job
          ++ generate_keyword_queries tpm job)) max_queries,
    q.query = " ".intercalate (job.skills_mentioned.take 5)
    ∧ q.type = "primary_skills" ∧ q.priority = 1
  obtain ⟨q, hq, h1, h2, h3⟩ := rank_and_filter_head_top
    { query := " ".intercalate (job.skills_mentioned.take 5)
      type := "primary_skills"
      priority := 1 } _ max_queries hrest rfl
  exact ⟨q, hq, h1, h2, h3⟩

/-- Witness for C6 at a concrete job description. -/
theorem optimizer_output_contains_primary_skills_witness :
    ∃ q ∈ generate_search_queries (fun _ => []) (fun _ => []) (fun _ => false) true
        { skills_mentioned := ["python", "docker", "kubernetes"] } 8,
      q.query = " ".intercalate
        ((({ skills_mentioned := ["python", "docker", "kubernetes"] }
          : JobDescription)).skills_mentioned.take 5)
      ∧ q.type = "primary_skills" ∧ q.priority = 1 :=
  optimizer_output_contains_primary_skills _ _ _ _ _ 8 (by decide)
